import Mathlib

/-!
Verification development for the "AI Word Daily" vocabulary service
(FastAPI + SQLAlchemy + APScheduler).  The Python sources are shallowly
embedded as executable Lean definitions:

* `src/scheduler.py`   — the daily notification tick (`EmailScheduler.send_daily_word_emails`),
* `src/email_service.py` — the notification composer (`EmailService.create_word_email`),
* `src/routers/words.py` — the word store CRUD / query surface,
* `src/models/word.py` — the `Word` row type (with its `unique=True` term column),
* `src/schemas/word_schemas.py` — request schemas.

Dates are embedded as year/month/day triples of naturals, timestamps as
naturals, strings as Lean `String`.  Fallible endpoints return `Except`.
Python truthiness of optional strings (`None` and `""` are falsy) is made
explicit wherever the source branches on it.
-/

namespace AWD

/-! ### ASCII character and string helpers

Embeddings of the Python string methods used by the sources
(`str.lower`, `str.upper`, `str.title`, `str.strip`) and of SQL
`ILIKE` pattern matching (case-insensitive `LIKE`, used via
SQLAlchemy's `Column.ilike`).  Case folding is ASCII, which covers the
repository's data; non-ASCII code points are left untouched. -/

/-- ASCII lower-casing of one character (Python `str.lower`, SQL case folding). -/
def lowerChar (c : Char) : Char :=
  if 65 ≤ c.toNat ∧ c.toNat ≤ 90 then Char.ofNat (c.toNat + 32) else c

/-- ASCII upper-casing of one character (Python `str.upper`). -/
def upperChar (c : Char) : Char :=
  if 97 ≤ c.toNat ∧ c.toNat ≤ 122 then Char.ofNat (c.toNat - 32) else c

/-- ASCII alphabetic test (Python `str.isalpha`, restricted to ASCII). -/
def isAsciiAlpha (c : Char) : Bool :=
  decide ((65 ≤ c.toNat ∧ c.toNat ≤ 90) ∨ (97 ≤ c.toNat ∧ c.toNat ≤ 122))

/-- Python whitespace characters stripped by `str.strip()` (ASCII subset). -/
def isPyWS (c : Char) : Bool :=
  decide (c.toNat = 32 ∨ c.toNat = 9 ∨ c.toNat = 10 ∨ c.toNat = 13 ∨ c.toNat = 11 ∨ c.toNat = 12)

/-- Python `str.lower()`. -/
def pyLower (s : String) : String := ⟨s.data.map lowerChar⟩

/-- Python `str.upper()`. -/
def pyUpper (s : String) : String := ⟨s.data.map upperChar⟩

/-- One step of Python `str.title()`: upper-case a letter that follows a
non-letter, lower-case a letter that follows a letter. -/
def titleStep (prevAlpha : Bool) (c : Char) : Char :=
  if prevAlpha then lowerChar c else upperChar c

def titleAux : Bool → List Char → List Char
  | _, [] => []
  | prevAlpha, c :: cs => titleStep prevAlpha c :: titleAux (isAsciiAlpha c) cs

/-- Python `str.title()` (ASCII): the first letter of every
alphabetic run is upper-cased, the rest lower-cased. -/
def pyTitle (s : String) : String := ⟨titleAux false s.data⟩

/-- Python `str.strip()`: remove leading and trailing whitespace. -/
def pyStripList (l : List Char) : List Char :=
  ((l.dropWhile isPyWS).reverse.dropWhile isPyWS).reverse

def pyStrip (s : String) : String := ⟨pyStripList s.data⟩

/-- SQL `ILIKE` pattern matching over character lists: `%` matches any
sequence, `_` matches any single character, every other pattern
character matches case-insensitively.  `likeMatch pat target` embeds
`target ILIKE pat`. -/
def likeMatch : List Char → List Char → Bool
  | [], [] => true
  | [], _ :: _ => false
  | p :: ps, [] => decide (p = '%') && likeMatch ps []
  | p :: ps, t :: ts =>
    if p = '%' then likeMatch ps (t :: ts) || likeMatch (p :: ps) ts
    else (decide (p = '_') || decide (lowerChar p = lowerChar t)) && likeMatch ps ts
termination_by ps ts => (ps.length, ts.length)

/-- `target ILIKE pat` on strings. -/
def ilike (target pat : String) : Bool := likeMatch pat.data target.data

/-- SQLAlchemy `Column.ilike` on a nullable column: `NULL ILIKE pat` is not true. -/
def ilikeOpt (target : Option String) (pat : String) : Bool :=
  match target with
  | none => false
  | some t => ilike t pat

/-- Case-insensitive string equality, the identity notion of the `term`
column stated by the specification. -/
def ciEq (s t : String) : Prop := pyLower s = pyLower t

instance : DecidablePred fun p : String × String => ciEq p.1 p.2 := by
  intro p; unfold ciEq; infer_instance

/-- Substring containment, via infixes of the underlying character lists. -/
def strContains (s t : String) : Prop := t.data <:+: s.data

instance (s t : String) : Decidable (strContains s t) := by
  unfold strContains; infer_instance

/-! ### Calendar dates

Python `datetime.date` values are embedded as year/month/day triples of
naturals; `datetime` timestamps (`created_at`, `updated_at`) as natural
tick counts. -/

structure PyDate where
  year : Nat
  month : Nat
  day : Nat
deriving DecidableEq, Repr

/-- Total order on dates (Python `date` comparison is lexicographic on
year, month, day). -/
def PyDate.le (a b : PyDate) : Bool :=
  decide (a.year < b.year ∨
    (a.year = b.year ∧ (a.month < b.month ∨
      (a.month = b.month ∧ a.day ≤ b.day))))

/-- SQL `BETWEEN lo AND hi` on a nullable date column (`NULL` is not in range). -/
def dateBetween (d : Option PyDate) (lo hi : PyDate) : Bool :=
  match d with
  | none => false
  | some d => PyDate.le lo d && PyDate.le d hi

/-- Gregorian leap year (Python `calendar.isleap`). -/
def isLeapYear (y : Nat) : Bool :=
  y % 4 = 0 && (y % 100 != 0 || y % 400 = 0)

/-- Number of days of a month (second component of Python
`calendar.monthrange(year, month)`). -/
def daysInMonth (y m : Nat) : Nat :=
  if m = 2 then (if isLeapYear y then 29 else 28)
  else if m = 4 ∨ m = 6 ∨ m = 9 ∨ m = 11 then 30
  else 31

/-- Day-of-week (0 = Sunday … 6 = Saturday) by Sakamoto's method, as used
by C `strftime` / Python `date.strftime("%A")`. -/
def dayOfWeek (d : PyDate) : Nat :=
  let t := [0, 3, 2, 5, 0, 3, 5, 1, 4, 6, 2, 4]
  let y := if d.month < 3 then d.year - 1 else d.year
  (y + y / 4 - y / 100 + y / 400 + t.getD (d.month - 1) 0 + d.day) % 7

def dayName (w : Nat) : String :=
  [ "Sunday", "Monday", "Tuesday", "Wednesday", "Thursday", "Friday",
    "Saturday" ].getD w "Sunday"

def monthName (m : Nat) : String :=
  [ "January", "February", "March", "April", "May", "June", "July",
    "August", "September", "October", "November", "December"
  ].getD (m - 1) "January"

/-- Two-digit zero padding (`strftime` `%d`). -/
def pad2 (n : Nat) : String :=
  if n < 10 then "0" ++ toString n else toString n

/-- Python `date.strftime("%A, %B %d, %Y")`: long human-readable form,
e.g. `Wednesday, January 15, 2025`. -/
def formatLongDate (d : PyDate) : String :=
  dayName (dayOfWeek d) ++ ", " ++ monthName d.month ++ " " ++
    pad2 d.day ++ ", " ++ toString d.year

/-- ASCII digit value of a character, if it is a digit. -/
def digitVal (c : Char) : Option Nat :=
  if 48 ≤ c.toNat ∧ c.toNat ≤ 57 then some (c.toNat - 48) else none

/-- Python `date.fromisoformat` on its canonical `YYYY-MM-DD` form: parses
and validates the calendar date, `none` when the string is not a valid
ISO date (the Python call raises `ValueError` there). -/
def parseIsoDate (s : String) : Option PyDate :=
  match s.data with
  | [y1, y2, y3, y4, h1, m1, m2, h2, d1, d2] =>
    if h1 = '-' ∧ h2 = '-' then
      match digitVal y1, digitVal y2, digitVal y3, digitVal y4,
          digitVal m1, digitVal m2, digitVal d1, digitVal d2 with
      | some a, some b, some c, some d, some e, some f, some g, some h =>
        let y := 1000 * a + 100 * b + 10 * c + d
        let m := 10 * e + f
        let dy := 10 * g + h
        if 1 ≤ y ∧ 1 ≤ m ∧ m ≤ 12 ∧ 1 ≤ dy ∧ dy ≤ daysInMonth y m then
          some ⟨y, m, dy⟩
        else none
      | _, _, _, _, _, _, _, _ => none
    else none
  | _ => none

/-- Python `date.isoformat()`: `YYYY-MM-DD` with zero padding. -/
def pad4 (n : Nat) : String :=
  if n < 10 then "000" ++ toString n
  else if n < 100 then "00" ++ toString n
  else if n < 1000 then "0" ++ toString n
  else toString n

def isoFormat (d : PyDate) : String :=
  pad4 d.year ++ "-" ++ pad2 d.month ++ "-" ++ pad2 d.day

/-! ### Data model

`src/models/word.py`: the `words` table.  The `term` column is declared
`unique=True, nullable=False`; `definition` and `difficulty` are
`nullable=False`; the remaining text columns and `date_published` are
nullable.

`src/models/user.py` is not part of the sources provided; the subscriber
record is modelled from its uses in `src/scheduler.py` (`user.email`,
`user.name`) and the specification's Subscriber entity (unique email,
display name). -/

structure Word where
  id : Nat
  term : String
  pronunciation : Option String
  definition : String
  «example» : Option String
  category : Option String
  difficulty : String
  date_published : Option PyDate
  created_at : Nat
  updated_at : Nat
deriving DecidableEq, Repr

structure User where
  id : Nat
  name : String
  email : String
deriving DecidableEq, Repr

/-- `src/schemas/word_schemas.py`: the `DifficultyLevel` string enum. -/
inductive DifficultyLevel where
  | beginner | intermediate | advanced | expert
deriving DecidableEq, Repr

def DifficultyLevel.value : DifficultyLevel → String
  | .beginner => "beginner"
  | .intermediate => "intermediate"
  | .advanced => "advanced"
  | .expert => "expert"

/-- `src/schemas/word_schemas.py`: `WordCreate` request body. -/
structure WordCreate where
  term : String
  pronunciation : Option String := none
  definition : String
  «example» : Option String := none
  category : Option String := none
  difficulty : DifficultyLevel := .beginner
  date_published : Option PyDate := none
deriving Repr

/-- `src/schemas/word_schemas.py`: `WordUpdate` request body.  Pydantic's
`dict(exclude_unset=True)` distinguishes an absent field from a field
explicitly set to `null`, so every field is a double option:
`none` = absent, `some none` = explicit `null`, `some (some v)` = value. -/
structure WordUpdate where
  term : Option (Option String) := none
  pronunciation : Option (Option String) := none
  definition : Option (Option String) := none
  «example» : Option (Option String) := none
  category : Option (Option String) := none
  difficulty : Option (Option DifficultyLevel) := none
  date_published : Option (Option PyDate) := none
deriving Repr

/-- Error outcomes of a request: `http status detail` embeds a raised
`fastapi.HTTPException`; `integrityError` embeds a database constraint
violation raised at `commit()` time (the `words.term` column is declared
`unique=True, nullable=False` in `src/models/word.py`, surfaced by
SQLAlchemy as `IntegrityError`). -/
inductive DbError where
  | http (status : Nat) (detail : String)
  | integrityError
deriving DecidableEq, Repr

/-! ### Word store operations (`src/routers/words.py`)

The relational store is embedded as a `List Word`; `query(...).first()`
is the first list element passing the filter, `query(...).all()` with an
`order_by` is a merge sort under the order's comparator.  Raised
`HTTPException`s are `Except.error (.http status detail)`; a constraint
violation raised by `db.commit()` is `Except.error .integrityError` and
leaves the store unchanged (the session is rolled back). -/

/-- Python truthiness of an optional string: `None` and `""` are falsy. -/
def optStrTruthy : Option String → Bool
  | none => false
  | some s => s != ""

/-- Python truthiness of an optional bool. -/
def optBoolTruthy (o : Option Bool) : Bool := o.getD false

/-- Nullable date column `>= lo` (false on `NULL`). -/
def dateGe (d : Option PyDate) (lo : PyDate) : Bool :=
  match d with
  | some d => PyDate.le lo d
  | none => false

/-- Nullable date column `<= hi` (false on `NULL`). -/
def dateLe (d : Option PyDate) (hi : PyDate) : Bool :=
  match d with
  | some d => PyDate.le d hi
  | none => false

/-- `create_word` (`src/routers/words.py` lines 14-36): duplicate pre-check
with `Word.term.ilike(word_data.term)`, then insertion with the term
lower-cased and stripped; the final `db.commit()` enforces the exact
uniqueness of the `term` column. -/
def createWord (store : List Word) (req : WordCreate) (now nextId : Nat) :
    Except DbError (List Word × Word) :=
  match (store.filter (fun w => ilike w.term req.term)).head? with
  | some _ => .error (.http 400 ("Term \x27" ++ req.term ++ "\x27 already exists"))
  | none =>
    let db_word : Word :=
      { id := nextId
        term := pyLower (pyStrip req.term)
        pronunciation := req.pronunciation
        definition := req.definition
        «example» := req.«example»
        category := req.category
        difficulty := req.difficulty.value
        date_published := req.date_published
        created_at := now
        updated_at := now }
    if store.any (fun w => w.term = db_word.term) then .error .integrityError
    else .ok (store ++ [db_word], db_word)

/-- Result of a mutation on the stored table: the store after the call
(unchanged when the call errored). -/
def storeAfterCreate (store : List Word) (req : WordCreate) (now nextId : Nat) : List Word :=
  match createWord store req now nextId with
  | .ok (s, _) => s
  | .error _ => store

/-- `ORDER BY date_published DESC NULLS LAST, created_at DESC`
(`src/routers/words.py` lines 90-93). -/
def wordOrderLe (a b : Word) : Bool :=
  match a.date_published, b.date_published with
  | some da, some dbd => if da = dbd then decide (b.created_at ≤ a.created_at) else PyDate.le dbd da
  | some _, none => true
  | none, some _ => false
  | none, none => decide (b.created_at ≤ a.created_at)

/-- `get_words` (`src/routers/words.py` lines 38-95): composable filters,
ordering, pagination.  `today` stands for `date.today()`. -/
def getWords (store : List Word) (today : PyDate)
    (category : Option String) (difficulty : Option DifficultyLevel)
    (search : Option String) (date_from date_to : Option PyDate)
    (published_today published_only unpublished_only : Option Bool)
    (skip limit : Nat) : List Word :=
  let q := store
  let q := if optStrTruthy category then
      q.filter (fun w => ilikeOpt w.category ("%" ++ category.getD "" ++ "%"))
    else q
  let q := match difficulty with
    | some d => q.filter (fun w : Word => w.difficulty == d.value)
    | none => q
  let q := if optStrTruthy search then
      let pat := "%" ++ search.getD "" ++ "%"
      q.filter (fun w =>
        ilike w.term pat || ilike w.definition pat || ilikeOpt w.«example» pat)
    else q
  let q := if optBoolTruthy published_only then
      q.filter (fun w => w.date_published.isSome)
    else if optBoolTruthy unpublished_only then
      q.filter (fun w => w.date_published.isNone)
    else q
  let q := if optBoolTruthy published_today then
      q.filter (fun w : Word => w.date_published == some today)
    else match date_from, date_to with
      | some df, some dt => q.filter (fun w => dateBetween w.date_published df dt)
      | some df, none => q.filter (fun w => dateGe w.date_published df)
      | none, some dt => q.filter (fun w => dateLe w.date_published dt)
      | none, none => q
  (((q.mergeSort wordOrderLe).drop skip).take limit)

/-- `ORDER BY date_published ASC` (`src/routers/words.py` line 180; every
row reaching this sort has a non-null date). -/
def monthlyOrderLe (a b : Word) : Bool :=
  match a.date_published, b.date_published with
  | some da, some dbd => PyDate.le da dbd
  | none, _ => true
  | _, none => false

/-- `get_monthly_words` (`src/routers/words.py` lines 159-182): validates
month and year ranges, then returns the words published between the
first and last day of the month, ascending by publication date. -/
def getMonthlyWords (store : List Word) (year month : Nat) :
    Except DbError (List Word) :=
  if month < 1 ∨ month > 12 then
    .error (.http 400 "Month must be between 1 and 12")
  else if year < 2020 ∨ year > 2030 then
    .error (.http 400 "Year must be between 2020 and 2030")
  else
    let start_date : PyDate := ⟨year, month, 1⟩
    let end_date : PyDate := ⟨year, month, daysInMonth year month⟩
    .ok ((store.filter
      (fun w => dateBetween w.date_published start_date end_date)).mergeSort monthlyOrderLe)

/-- `update_word` (`src/routers/words.py` lines 199-227).  The update loop
visits the provided fields in schema declaration order, so `term` is
handled first and its duplicate check (`Word.term.ilike(value)` with
`Word.id != word_id`, an order-insensitive SQL conjunction, embedded
with the id test first) raises before any other field is applied; a truthy
new term is lower-cased and stripped, a falsy provided value (empty
string or explicit `null`) is assigned verbatim by the generic
`setattr` branch.  `db.commit()` then enforces the NOT NULL constraints
of `term`, `definition` and `difficulty` and the exact uniqueness of
`term`; a violation rolls the session back. -/
def updateWord (store : List Word) (word_id : Nat) (upd : WordUpdate) (now : Nat) :
    Except DbError (List Word × Word) :=
  match store.find? (fun w => w.id = word_id) with
  | none => .error (.http 404 "Word not found")
  | some word =>
    let applyTerm : Except DbError (Option String) :=
      match upd.term with
      | none => .ok (some word.term)
      | some none => .ok none
      | some (some v) =>
        if v ≠ "" then
          if ((store.filter (fun w => w.id ≠ word_id && ilike w.term v)).head?).isSome then
            .error (.http 400 ("Term \x27" ++ v ++ "\x27 already exists"))
          else .ok (some (pyLower (pyStrip v)))
        else .ok (some v)
    match applyTerm with
    | .error e => .error e
    | .ok newTerm =>
      let newDefinition : Option String :=
        match upd.definition with
        | none => some word.definition
        | some v => v
      let newDifficulty : Option String :=
        match upd.difficulty with
        | none => some word.difficulty
        | some none => none
        | some (some d) => some d.value
      match newTerm, newDefinition, newDifficulty with
      | some t, some dfn, some dif =>
        let newWord : Word :=
          { word with
            term := t
            pronunciation :=
              match upd.pronunciation with
              | none => word.pronunciation
              | some v => v
            definition := dfn
            «example» :=
              match upd.«example» with
              | none => word.«example»
              | some v => v
            category :=
              match upd.category with
              | none => word.category
              | some v => v
            difficulty := dif
            date_published :=
              match upd.date_published with
              | none => word.date_published
              | some v => v
            updated_at := now }
        if (store.filter (fun w => w.id ≠ word_id)).any (fun w => w.term = t) then
          .error .integrityError
        else .ok (store.map (fun w => if w.id = word_id then newWord else w), newWord)
      | _, _, _ => .error .integrityError

def storeAfterUpdate (store : List Word) (word_id : Nat) (upd : WordUpdate) (now : Nat) :
    List Word :=
  match updateWord store word_id upd now with
  | .ok (s, _) => s
  | .error _ => store

/-- `publish_word` (`src/routers/words.py` lines 229-252): sets
`date_published` to the given date, defaulting to `date.today()`, and
refreshes `updated_at`. -/
def publishWord (store : List Word) (word_id : Nat) (publish_date : Option PyDate)
    (today : PyDate) (now : Nat) : Except DbError (List Word × Word) :=
  match store.find? (fun w => w.id = word_id) with
  | none => .error (.http 404 "Word not found")
  | some word =>
    let w2 := { word with date_published := some (publish_date.getD today), updated_at := now }
    .ok (store.map (fun w => if w.id = word_id then w2 else w), w2)

/-- `unpublish_word` (`src/routers/words.py` lines 254-269): clears
`date_published` and refreshes `updated_at`. -/
def unpublishWord (store : List Word) (word_id : Nat) (now : Nat) :
    Except DbError (List Word × Word) :=
  match store.find? (fun w => w.id = word_id) with
  | none => .error (.http 404 "Word not found")
  | some word =>
    let w2 := { word with date_published := none, updated_at := now }
    .ok (store.map (fun w => if w.id = word_id then w2 else w), w2)

/-! ### Notification composer (`src/email_service.py`)

`EmailService.create_word_email(word_data, recipient_name)` renders the
Jinja2 HTML and plain-text templates.  The `word_data` dictionary is the
one built by the scheduler (`src/scheduler.py` lines 70-78): every key
present, optional fields `None`, and `date_published` an ISO string or
`None`.  A rendered body is the concatenation (`String.join`) of its
parts list; a `{% if %}` guard of the template becomes an emptiable
block sub-list, with Jinja truthiness (`None` and `""` falsy) made
explicit through `optStrTruthy`.  The surrounding template text is kept
verbatim, including whitespace (Jinja leaves the text around the
removed tags in place). -/

structure WordData where
  term : String
  pronunciation : Option String
  definition : String
  «example» : Option String
  category : Option String
  difficulty : String
  date_published : Option String
deriving DecidableEq, Repr

/-- Date formatting of `create_word_email` (`src/email_service.py` lines
378-390): a falsy (`None` or empty) `date_published` gives `"Today"`, a
parsable ISO string its long form, an unparsable string (the `except`
path) `"Today"` again.  The scheduler always passes an ISO string or
`None`, so the `isinstance(word_date, str)` branch is the one embedded. -/
def emailWordDate (wd : WordData) : String :=
  match wd.date_published with
  | none => "Today"
  | some s =>
    if s = "" then "Today"
    else
      match parseIsoDate s with
      | some d => formatLongDate d
      | none => "Today"

def htmlPronBlock (wd : WordData) : List String :=
  if optStrTruthy wd.pronunciation then
    [ "\n                        <div class=\"word-pronunciation\">",
      wd.pronunciation.getD "",
      "</div>\n                        " ]
  else []

def htmlExampleBlock (wd : WordData) : List String :=
  if optStrTruthy wd.«example» then
    [ "\n                        <div class=\"word-example\">\"",
      wd.«example».getD "",
      "\"</div>\n                        " ]
  else []

def htmlCatBlock (wd : WordData) : List String :=
  if optStrTruthy wd.category then
    [ "\n                            <span class=\"badge category-badge\">",
      wd.category.getD "",
      "</span>\n                            " ]
  else []

def htmlParts (wd : WordData) (recipient_name word_date : String) : List String :=
  [ "\n        <!DOCTYPE html>\n        <html>\n        <head>\n            <meta charset=\"UTF-8\">\n            <meta name=\"viewport\" content=\"width=device-width, initial-scale=1.0\">\n            <title>AI Word Daily - ",
    pyTitle wd.term,
    "</title>\n            <style>\n                body \x7b\n                    font-family: -apple-system, BlinkMacSystemFont, \x27Segoe UI\x27, Roboto, sans-serif;\n                    line-height: 1.6;\n                    color: #333;\n                    background: #f8fafc;\n                    margin: 0;\n                    padding: 20px;\n                \x7d\n                .container \x7b\n                    max-width: 600px;\n                    margin: 0 auto;\n                    background: white;\n                    border-radius: 12px;\n                    overflow: hidden;\n                    box-shadow: 0 4px 6px rgba(0, 0, 0, 0.1);\n                \x7d\n                .header \x7b\n                    background: linear-gradient(135deg, #667eea 0%, #764ba2 100%);\n                    color: white;\n                    padding: 2rem;\n                    text-align: center;\n                \x7d\n                .header h1 \x7b\n                    margin: 0 0 0.5rem 0;\n                    font-size: 2rem;\n                    font-weight: 700;\n                \x7d\n                .header p \x7b\n                    margin: 0;\n                    opacity: 0.9;\n                \x7d\n                .content \x7b\n                    padding: 2rem;\n                \x7d\n                .word-section \x7b\n                    background: #f8fafc;\n                    border-radius: 8px;\n                    padding: 1.5rem;\n                    margin-bottom: 1.5rem;\n                \x7d\n                .word-term \x7b\n                    font-size: 2.5rem;\n                    font-weight: 700;\n                    color: #1a202c;\n                    margin-bottom: 0.5rem;\n                    text-transform: capitalize;\n                \x7d\n                .word-pronunciation \x7b\n                    font-style: italic;\n                    color: #718096;\n                    margin-bottom: 1rem;\n                    font-size: 1.1rem;\n                \x7d\n                .word-definition \x7b\n                    color: #4a5568;\n                    margin-bottom: 1rem;\n                    font-size: 1.1rem;\n                    line-height: 1.6;\n                \x7d\n                .word-example \x7b\n                    background: white;\n                    padding: 1rem;\n                    border-radius: 6px;\n                    border-left: 4px solid #667eea;\n                    font-style: italic;\n                    color: #4a5568;\n                    margin-bottom: 1rem;\n                \x7d\n                .word-meta \x7b\n                    display: flex;\n                    gap: 0.5rem;\n                    justify-content: center;\n                    flex-wrap: wrap;\n                    margin-bottom: 1rem;\n                \x7d\n                .badge \x7b\n                    padding: 0.25rem 0.75rem;\n                    border-radius: 20px;\n                    font-size: 0.8rem;\n                    font-weight: 500;\n                    text-transform: capitalize;\n                \x7d\n                .category-badge \x7b\n                    background: #e2e8f0;\n                    color: #4a5568;\n                \x7d\n                .difficulty-beginner \x7b background: #c6f6d5; color: #22543d; \x7d\n                .difficulty-intermediate \x7b background: #fef5e7; color: #c05621; \x7d\n                .difficulty-advanced \x7b background: #fed7d7; color: #c53030; \x7d\n                .difficulty-expert \x7b background: #e9d8fd; color: #553c9a; \x7d\n                .footer \x7b\n                    background: #f8fafc;\n                    padding: 1.5rem;\n                    text-align: center;\n                    color: #718096;\n                    font-size: 0.9rem;\n                \x7d\n                .footer a \x7b\n                    color: #667eea;\n                    text-decoration: none;\n                \x7d\n                .cta-button \x7b\n                    display: inline-block;\n                    background: linear-gradient(135deg, #667eea 0%, #764ba2 100%);\n                    color: white;\n                    padding: 0.75rem 1.5rem;\n                    border-radius: 8px;\n                    text-decoration: none;\n                    font-weight: 600;\n                    margin-top: 1rem;\n                \x7d\n            </style>\n        </head>\n        <body>\n            <div class=\"container\">\n                <div class=\"header\">\n                    <h1>🤖 AI Word Daily</h1>\n                    <p>",
    word_date,
    "</p>\n                </div>\n                \n                <div class=\"content\">\n                    <p>Hello ",
    recipient_name,
    ",</p>\n                    <p>Here\x27s your word of the day to expand your vocabulary!</p>\n                    \n                    <div class=\"word-section\">\n                        <div class=\"word-term\">",
    wd.term,
    "</div>\n                        " ] ++
  htmlPronBlock wd ++
  [ "\n                        <div class=\"word-definition\">",
    wd.definition,
    "</div>\n                        " ] ++
  htmlExampleBlock wd ++
  [ "\n                        <div class=\"word-meta\">\n                            " ] ++
  htmlCatBlock wd ++
  [ "\n                            <span class=\"badge difficulty-",
    wd.difficulty,
    "\">",
    wd.difficulty,
    "</span>\n                        </div>\n                    </div>\n                    \n                    <p>Keep learning and expanding your vocabulary! 🚀</p>\n                    \n                    <div style=\"text-align: center;\">\n                        <a href=\"http://localhost:8000\" class=\"cta-button\">Visit AI Word Daily</a>\n                    </div>\n                </div>\n                \n                <div class=\"footer\">\n                    <p>You\x27re receiving this because you signed up for AI Word Daily.</p>\n                    <p>© 2025 AI Word Daily. All rights reserved.</p>\n                </div>\n            </div>\n        </body>\n        </html>\n        " ]

def textPronBlock (wd : WordData) : List String :=
  if optStrTruthy wd.pronunciation then
    [ wd.pronunciation.getD "" ]
  else []

def textExampleBlock (wd : WordData) : List String :=
  if optStrTruthy wd.«example» then
    [ "Example: \"",
      wd.«example».getD "",
      "\"" ]
  else []

def textCatBlock (wd : WordData) : List String :=
  if optStrTruthy wd.category then
    [ "Category: ",
      wd.category.getD "" ]
  else []

def textParts (wd : WordData) (recipient_name word_date : String) : List String :=
  [ "\nAI Word Daily - ",
    word_date,
    "\n\nHello ",
    recipient_name,
    ",\n\nHere\x27s your word of the day:\n\n",
    pyUpper wd.term,
    "\n" ] ++
  textPronBlock wd ++
  [ "\n\nDefinition: ",
    wd.definition,
    "\n\n" ] ++
  textExampleBlock wd ++
  [ "\n\n" ] ++
  textCatBlock wd ++
  [ "\nDifficulty: ",
    pyTitle wd.difficulty,
    "\n\nKeep learning and expanding your vocabulary!\n\nVisit AI Word Daily: http://localhost:8000\n\n---\nYou\x27re receiving this because you signed up for AI Word Daily.\n© 2025 AI Word Daily. All rights reserved.\n        " ]

/-- `EmailService.create_word_email` (`src/email_service.py` lines
182-405): the rendered `(html_content, text_content)` pair. -/
def create_word_email (wd : WordData) (recipient_name : String) : String × String :=
  let word_date := emailWordDate wd
  (String.join (htmlParts wd recipient_name word_date),
   String.join (textParts wd recipient_name word_date))

/-! ### Daily scheduler tick (`src/scheduler.py`)

`EmailScheduler.send_daily_word_emails` is embedded as a function of an
explicit tick environment: the current date, the store contents, and the
behaviour of the collaborators (whether acquiring the session or running
a query raises, and the boolean result of each transport call).  The
result records what the tick did: whether an exception propagated out
of the coroutine, whether the session was acquired and closed, the
selected word, the composer invocations (one personalisation name per
batch), the transport calls (one recipient list per batch) and the
total count of notified subscribers. -/

/-- Environment of one tick.  `acquireOk = false` means
`SessionLocal()` itself raises; `wordQueryOk = false` / `userQueryOk =
false` mean the corresponding store query raises; `sendOk i` is the
boolean returned by `email_service.send_email` for the `i`-th batch
(`send_email` catches its own exceptions and returns a boolean,
`src/email_service.py` lines 84-180). -/
structure TickEnv where
  today : PyDate
  words : List Word
  users : List User
  acquireOk : Bool
  wordQueryOk : Bool
  userQueryOk : Bool
  sendOk : Nat → Bool

structure TickResult where
  raised : Bool
  sessionAcquired : Bool
  sessionClosed : Bool
  selectedWord : Option Word
  composerNames : List String
  transportBatches : List (List String)
  totalSent : Nat

/-- First element of the fold that keeps the maximum under `le`
(ties keep the earlier element).  This embeds
`query.order_by(col.desc()).first()`: the first row of a descending
order is a row whose key is maximal. -/
def firstMaxBy (le : α → α → Bool) (l : List α) : Option α :=
  l.foldl (fun acc w =>
    match acc with
    | none => some w
    | some b => if le w b then some b else some w) none

/-- Comparison of two published words by publication date (both operands
come from a filter keeping `date_published` non-null). -/
def pubDateLe (a b : Word) : Bool :=
  PyDate.le (a.date_published.getD ⟨0, 0, 0⟩) (b.date_published.getD ⟨0, 0, 0⟩)

/-- Word selection of the tick (`src/scheduler.py` lines 48-60): the word published today
if any, else the most recently published word
(`Word.date_published.isnot(None)`, descending by date, first row). -/
def selectDailyWord (today : PyDate) (words : List Word) : Option Word :=
  match (words.filter (fun w : Word => w.date_published == some today)).head? with
  | some w => some w
  | none => firstMaxBy pubDateLe (words.filter (fun w => w.date_published.isSome))

/-- Python `range(0, stop, step)` for a positive step. -/
def pyRangeStep (stop step : Nat) : List Nat :=
  (List.range ((stop + step - 1) / step)).map (fun i => i * step)

/-- Python slice `xs[i : i + len]`. -/
def pySlice (xs : List α) (i len : Nat) : List α := (xs.drop i).take len

/-- `user_batches = [users[i:i + batch_size] for i in range(0, len(users), batch_size)]`
(`src/scheduler.py` line 82). -/
def userBatches (batch_size : Nat) (users : List α) : List (List α) :=
  (pyRangeStep users.length batch_size).map (fun i => pySlice users i batch_size)

/-- Batch size used by the scheduler (`src/scheduler.py` line 81). -/
def schedulerBatchSize : Nat := 10

/-- Per-batch loop of the tick (`src/scheduler.py` lines 84-108), indexed
by the transport-call number: collects the personalisation name passed
to the composer (`batch[0].name if batch else "Friend"`), the
recipient list handed to the transport, and accumulates
`total_sent += len(batch_emails)` for the calls that returned true. -/
def batchLoop (sendOk : Nat → Bool) : Nat → List (List User) →
    List String × List (List String) × Nat
  | _, [] => ([], [], 0)
  | i, b :: rest =>
    let name := match b.head? with
      | some u => u.name
      | none => "Friend"
    let emails := b.map (fun u => u.email)
    let (names, calls, total) := batchLoop sendOk (i + 1) rest
    (name :: names, emails :: calls, (if sendOk i then emails.length else 0) + total)

/-- `EmailScheduler.send_daily_word_emails` (`src/scheduler.py` lines
43-116).  The body is a `try/except Exception/finally` block whose
`finally` runs `db.close()`.  `db` is assigned inside the `try`
(line 46), so when `SessionLocal()` itself raises, the `except` arm
logs the error but the `finally` then evaluates `db.close()` with `db`
unbound and an `UnboundLocalError` propagates out of the tick — the
first branch below.  On every path where the session was acquired the
`finally` closes it. -/
def send_daily_word_emails (env : TickEnv) : TickResult :=
  if !env.acquireOk then
    { raised := true, sessionAcquired := false, sessionClosed := false,
      selectedWord := none, composerNames := [], transportBatches := [], totalSent := 0 }
  else if !env.wordQueryOk then
    { raised := false, sessionAcquired := true, sessionClosed := true,
      selectedWord := none, composerNames := [], transportBatches := [], totalSent := 0 }
  else
    match selectDailyWord env.today env.words with
    | none =>
      { raised := false, sessionAcquired := true, sessionClosed := true,
        selectedWord := none, composerNames := [], transportBatches := [], totalSent := 0 }
    | some word =>
      if !env.userQueryOk then
        { raised := false, sessionAcquired := true, sessionClosed := true,
          selectedWord := some word, composerNames := [], transportBatches := [], totalSent := 0 }
      else if env.users.isEmpty then
        { raised := false, sessionAcquired := true, sessionClosed := true,
          selectedWord := some word, composerNames := [], transportBatches := [], totalSent := 0 }
      else
        let batches := userBatches schedulerBatchSize env.users
        let r := batchLoop env.sendOk 0 batches
        { raised := false, sessionAcquired := true, sessionClosed := true,
          selectedWord := some word, composerNames := r.1,
          transportBatches := r.2.1, totalSent := r.2.2 }

/-! ### Concrete fixtures used by witnesses -/

def wordFixture : Word :=
  ⟨1, "alpha", none, "d1", none, none, "beginner", some ⟨2025, 3, 10⟩, 0, 0⟩

def subsFixture (n : Nat) : List User :=
  (List.range n).map (fun i => ⟨i, "Sub" ++ toString i, "sub" ++ toString i ++ "@example.com"⟩)

/-- A tick environment with one word published on the tick date, `n`
subscribers, working collaborators, and a transport that succeeds on the
even-numbered batches only. -/
def tickEnvFixture (n : Nat) : TickEnv :=
  ⟨⟨2025, 3, 10⟩, [wordFixture], subsFixture n, true, true, true, fun i => i % 2 == 0⟩

/-- Invariant: every stored term is a fixed point of
lower-casing-plus-stripping (lower-case and trimmed). -/
def allNormalized (l : List Word) : Prop :=
  ∀ w ∈ l, w.term = pyLower (pyStrip w.term)

/-- Store with an empty-string term (reachable by creating a word whose
term strips to the empty string) plus an ordinary second word. -/
def emptyTermStore : List Word :=
  [⟨1, "", none, "d1", none, none, "beginner", none, 0, 0⟩,
   ⟨2, "beta", none, "d2", none, none, "beginner", none, 0, 0⟩]

/-- Update request renaming a word to the empty string. -/
def renameToEmptyUpd : WordUpdate := { term := some (some "") }

/-- Create request whose term is case-insensitively equal to the stored
`"alpha"`. -/
def dupCreateReq : WordCreate := { term := "ALPHA", definition := "dup" }

/-- Two-word store used by the duplicate-rename witness. -/
def twoWordStore : List Word :=
  [wordFixture, ⟨2, "beta", none, "d2", none, none, "beginner", none, 0, 0⟩]

/-- Update request renaming a word to `"Alpha"`. -/
def dupRenameUpd : WordUpdate := { term := some (some "Alpha") }

/-- Row stored by the witness create of `"  MiXeD  "`. -/
def mixedWordRecord : Word :=
  ⟨9, "mixed", none, "d", none, none, "beginner", none, 3, 3⟩

/-- Row committed by the witness rename of word 2 to `" BETA2 "`. -/
def beta2Record : Word :=
  ⟨2, "beta2", none, "d2", none, none, "beginner", none, 0, 3⟩

/-- Single-word store used by the rename-normalization witness. -/
def oneWordStore : List Word :=
  [⟨2, "beta", none, "d2", none, none, "beginner", none, 0, 0⟩]

/-- Fully populated word data used by the composer witness. -/
def wdFull : WordData :=
  ⟨"serendipity", some "ser-uhn-DIP-i-tee", "finding something good without looking for it",
   some "It was pure serendipity.", some "life", "beginner", some "2025-01-15"⟩

-- ===== end of definitions =====

end AWD

namespace AWD

/-! ## Theorems -/

/-! ### String helper lemmas -/

/-- Auxiliary fact about `Char.ofNat` on code points below the surrogate range. -/
theorem char_toNat_ofNat_of_valid {n : Nat} (h : n < 55296) : (Char.ofNat n).toNat = n := by
  have hv : Nat.isValidChar n := Or.inl (by omega)
  simp [Char.ofNat, hv, Char.ofNatAux, Char.toNat, UInt32.toNat]

theorem strContains_appL {a t : String} (b : String) (h : strContains a t) :
    strContains (a ++ b) t := by
  unfold strContains at h ⊢
  rw [String.data_append]
  exact h.trans (List.prefix_append a.data b.data).isInfix

theorem strContains_appR {b t : String} (a : String) (h : strContains b t) :
    strContains (a ++ b) t := by
  unfold strContains at h ⊢
  rw [String.data_append]
  exact h.trans (List.suffix_append a.data b.data).isInfix

theorem strContains_refl (s : String) : strContains s s := by
  unfold strContains; exact List.infix_refl _

theorem strContains_join_of_mem {l : List String} {x : String} (h : x ∈ l) :
    strContains (String.join l) x := by
  induction l with
  | nil => cases h
  | cons a l ih =>
    have hj : String.join (a :: l) = a ++ String.join l := by
      simp only [String.join_eq, List.map_cons, List.flatten_cons]
      rfl
    rcases List.mem_cons.mp h with h1 | h2
    · exact hj ▸ h1 ▸ strContains_appL _ (strContains_refl _)
    · exact hj ▸ strContains_appR _ (ih h2)

theorem ne_empty_of_strContains {s t : String} (h : strContains s t) (ht : t ≠ "") :
    s ≠ "" := by
  intro hs
  apply ht
  subst hs
  unfold strContains at h
  have : t.data = [] := List.eq_nil_of_infix_nil h
  cases t
  simp_all

/-! ### Date order lemmas -/

theorem PyDate.le_trans {a b c : PyDate} (h1 : PyDate.le a b = true)
    (h2 : PyDate.le b c = true) : PyDate.le a c = true := by
  simp only [PyDate.le, decide_eq_true_eq] at h1 h2 ⊢
  omega

theorem PyDate.le_total (a b : PyDate) : PyDate.le a b = true ∨ PyDate.le b a = true := by
  simp only [PyDate.le, decide_eq_true_eq]
  omega

theorem pubDateLe_trans {a b c : Word} (h1 : pubDateLe a b = true)
    (h2 : pubDateLe b c = true) : pubDateLe a c = true :=
  PyDate.le_trans h1 h2

theorem pubDateLe_total (a b : Word) : pubDateLe a b = true ∨ pubDateLe b a = true :=
  PyDate.le_total _ _

/-! ### Maximum-selection lemmas (`ORDER BY ... DESC` + `first()`) -/

theorem firstMaxBy_go {α : Type} (le : α → α → Bool)
    (htrans : ∀ a b c, le a b = true → le b c = true → le a c = true)
    (htot : ∀ a b, le a b = true ∨ le b a = true) :
    ∀ (l : List α) (b : α),
      ∃ m, l.foldl (fun acc w =>
          match acc with
          | none => some w
          | some x => if le w x then some x else some w) (some b) = some m ∧
        (m = b ∨ m ∈ l) ∧ le b m = true ∧ ∀ x ∈ l, le x m = true := by
  intro l
  induction l with
  | nil =>
    intro b
    refine ⟨b, rfl, Or.inl rfl, ?_, by simp⟩
    rcases htot b b with h | h <;> exact h
  | cons a l ih =>
    intro b
    by_cases hab : le a b = true
    · obtain ⟨m, hm, hmem, hbm, hall⟩ := ih b
      refine ⟨m, ?_, ?_, hbm, ?_⟩
      · simpa [hab] using hm
      · rcases hmem with h | h
        · exact Or.inl h
        · exact Or.inr (List.mem_cons_of_mem _ h)
      · intro x hx
        rcases List.mem_cons.mp hx with h | h
        · exact h ▸ htrans a b m hab hbm
        · exact hall x h
    · have hba : le b a = true := by
        rcases htot a b with h | h
        · exact absurd h hab
        · exact h
      obtain ⟨m, hm, hmem, ham, hall⟩ := ih a
      refine ⟨m, ?_, ?_, htrans b a m hba ham, ?_⟩
      · simpa [hab] using hm
      · rcases hmem with h | h
        · exact Or.inr (h ▸ List.mem_cons_self a l)
        · exact Or.inr (List.mem_cons_of_mem _ h)
      · intro x hx
        rcases List.mem_cons.mp hx with h | h
        · exact h ▸ ham
        · exact hall x h

theorem firstMaxBy_spec {α : Type} (le : α → α → Bool)
    (htrans : ∀ a b c, le a b = true → le b c = true → le a c = true)
    (htot : ∀ a b, le a b = true ∨ le b a = true)
    (l : List α) (hne : l ≠ []) :
    ∃ m, firstMaxBy le l = some m ∧ m ∈ l ∧ ∀ x ∈ l, le x m = true := by
  cases l with
  | nil => exact absurd rfl hne
  | cons a l =>
    obtain ⟨m, hm, hmem, ham, hall⟩ := firstMaxBy_go le htrans htot l a
    refine ⟨m, ?_, ?_, ?_⟩
    · simpa [firstMaxBy] using hm
    · rcases hmem with h | h
      · exact h ▸ List.mem_cons_self a l
      · exact List.mem_cons_of_mem _ h
    · intro x hx
      rcases List.mem_cons.mp hx with h | h
      · exact h ▸ ham
      · exact hall x h

/-! ### Word-selection lemmas for the tick -/

theorem selectDailyWord_today {today : PyDate} {words : List Word}
    (h : ∃ w ∈ words, w.date_published = some today) :
    ∃ m, selectDailyWord today words = some m ∧ m ∈ words ∧
      m.date_published = some today := by
  unfold selectDailyWord
  cases hh : (words.filter (fun w : Word => w.date_published == some today)).head? with
  | none =>
    exfalso
    obtain ⟨w, hw, hdw⟩ := h
    have : words.filter (fun w : Word => w.date_published == some today) = [] :=
      List.head?_eq_none_iff.mp hh
    have := List.filter_eq_nil_iff.mp this w hw
    simp [hdw] at this
  | some m =>
    have hmem := List.mem_of_mem_head? hh
    have := List.mem_filter.mp hmem
    exact ⟨m, rfl, this.1, by simpa using this.2⟩

theorem selectDailyWord_fallback {today : PyDate} {words : List Word}
    (hno : ∀ w ∈ words, w.date_published ≠ some today)
    (hs : ∃ w ∈ words, w.date_published.isSome = true) :
    ∃ m, selectDailyWord today words = some m ∧ m ∈ words ∧
      m.date_published.isSome = true ∧
      ∀ v ∈ words, v.date_published.isSome = true → pubDateLe v m = true := by
  unfold selectDailyWord
  have hfil : words.filter (fun w : Word => w.date_published == some today) = [] := by
    apply List.filter_eq_nil_iff.mpr
    intro w hw
    simpa using hno w hw
  rw [hfil]
  simp only [List.head?_nil]
  have hne : words.filter (fun w => w.date_published.isSome) ≠ [] := by
    obtain ⟨w, hw, hdw⟩ := hs
    intro hcon
    have := List.filter_eq_nil_iff.mp hcon w hw
    simp [hdw] at this
  obtain ⟨m, hm, hmem, hall⟩ :=
    firstMaxBy_spec pubDateLe (fun _ _ _ => pubDateLe_trans) pubDateLe_total _ hne
  have hm2 := List.mem_filter.mp hmem
  refine ⟨m, hm, hm2.1, hm2.2, ?_⟩
  intro v hv hvs
  exact hall v (List.mem_filter.mpr ⟨hv, hvs⟩)

theorem selectDailyWord_none {today : PyDate} {words : List Word}
    (h : ∀ w ∈ words, w.date_published = none) :
    selectDailyWord today words = none := by
  unfold selectDailyWord
  have hfil : words.filter (fun w : Word => w.date_published == some today) = [] := by
    apply List.filter_eq_nil_iff.mpr
    intro w hw
    simp [h w hw]
  have hfil2 : words.filter (fun w : Word => w.date_published.isSome) = [] := by
    apply List.filter_eq_nil_iff.mpr
    intro w hw
    simp [h w hw]
  rw [hfil, hfil2]
  rfl

/-- Under a working session and word query, the word recorded by the tick
is exactly the selection's result, whatever the later stages do. -/
theorem tick_selectedWord (env : TickEnv) (ha : env.acquireOk = true)
    (hw : env.wordQueryOk = true) :
    (send_daily_word_emails env).selectedWord = selectDailyWord env.today env.words := by
  unfold send_daily_word_emails
  rw [ha, hw]
  cases h : selectDailyWord env.today env.words with
  | none => simp
  | some w =>
    by_cases hu : env.userQueryOk <;> by_cases he : env.users.isEmpty <;> simp [hu, he]

/-- C1.  For every tick of the daily scheduler job (with the store
session and word query operating normally), the word selected for
notification is: a word whose publication date equals the current date
if one exists; otherwise a word carrying the latest non-null publication
date; and if no word has a non-null publication date, the tick sends
nothing, performs no transport calls, and returns without raising an
error. -/
theorem C1_scheduler_selection (env : TickEnv)
    (ha : env.acquireOk = true) (hw : env.wordQueryOk = true) :
    ((∃ w ∈ env.words, w.date_published = some env.today) →
      ∃ m, (send_daily_word_emails env).selectedWord = some m ∧ m ∈ env.words ∧
        m.date_published = some env.today) ∧
    ((∀ w ∈ env.words, w.date_published ≠ some env.today) →
      (∃ w ∈ env.words, w.date_published.isSome = true) →
      ∃ m, (send_daily_word_emails env).selectedWord = some m ∧ m ∈ env.words ∧
        m.date_published.isSome = true ∧
        ∀ v ∈ env.words, v.date_published.isSome = true → pubDateLe v m = true) ∧
    ((∀ w ∈ env.words, w.date_published = none) →
      (send_daily_word_emails env).selectedWord = none ∧
      (send_daily_word_emails env).raised = false ∧
      (send_daily_word_emails env).transportBatches = [] ∧
      (send_daily_word_emails env).composerNames = [] ∧
      (send_daily_word_emails env).totalSent = 0) := by
  refine ⟨?_, ?_, ?_⟩
  · intro h
    obtain ⟨m, hm, hmem, hdate⟩ := selectDailyWord_today h
    exact ⟨m, by rw [tick_selectedWord env ha hw, hm], hmem, hdate⟩
  · intro hno hs
    obtain ⟨m, hm, hmem, hsome, hmax⟩ := selectDailyWord_fallback hno hs
    exact ⟨m, by rw [tick_selectedWord env ha hw, hm], hmem, hsome, hmax⟩
  · intro h
    have hsel : selectDailyWord env.today env.words = none := selectDailyWord_none h
    unfold send_daily_word_emails
    rw [ha, hw, hsel]
    simp

/-- Witness for C1: a concrete tick environment exercising all three
branches of the selection claim (one store per branch). -/
theorem C1_scheduler_selection_witness :
    (let d : PyDate := ⟨2025, 3, 10⟩
     let w1 : Word := ⟨1, "alpha", none, "d1", none, none, "beginner", some d, 0, 0⟩
     let env : TickEnv := ⟨d, [w1], [], true, true, true, fun _ => true⟩
     (∃ w ∈ env.words, w.date_published = some env.today) ∧
      ∃ m, (send_daily_word_emails env).selectedWord = some m ∧ m ∈ env.words ∧
        m.date_published = some env.today) := by
  refine ⟨⟨⟨1, "alpha", none, "d1", none, none, "beginner", some ⟨2025, 3, 10⟩, 0, 0⟩,
    by simp, rfl⟩, ?_⟩
  exact (C1_scheduler_selection _ rfl rfl).1
    ⟨⟨1, "alpha", none, "d1", none, none, "beginner", some ⟨2025, 3, 10⟩, 0, 0⟩, by simp, rfl⟩

/-! ### Batching lemmas -/

theorem userBatches_length {α : Type} (xs : List α) :
    (userBatches 10 xs).length = (xs.length + 9) / 10 := by
  simp [userBatches, pyRangeStep]

theorem userBatches_get {α : Type} (xs : List α) (i : Nat)
    (h : i < (userBatches 10 xs).length) :
    (userBatches 10 xs).get ⟨i, h⟩ = (xs.drop (i * 10)).take 10 := by
  simp [userBatches, pyRangeStep, pySlice, List.get_eq_getElem]

theorem userBatches_eq_cons {α : Type} (xs : List α) (hx : xs ≠ []) :
    userBatches 10 xs = xs.take 10 :: userBatches 10 (xs.drop 10) := by
  have hn : 1 ≤ xs.length := by
    cases xs
    · exact absurd rfl hx
    · simp
  have hceil : (xs.length + 10 - 1) / 10 = ((xs.length - 10) + 10 - 1) / 10 + 1 := by
    omega
  unfold userBatches pyRangeStep
  rw [List.length_drop, hceil, List.range_succ_eq_map]
  simp only [List.map_cons, List.map_map]
  congr 1
  apply List.map_congr_left
  intro i _
  simp only [Function.comp_apply, pySlice, List.drop_drop]
  congr 2
  omega

theorem userBatches_flatten_aux {α : Type} :
    ∀ (n : Nat) (xs : List α), xs.length ≤ n → (userBatches 10 xs).flatten = xs := by
  intro n
  induction n with
  | zero =>
    intro xs h
    have hx : xs = [] := by
      cases xs
      · rfl
      · simp at h
    subst hx
    simp [userBatches, pyRangeStep]
  | succ n ih =>
    intro xs h
    by_cases hx : xs = []
    · subst hx; simp [userBatches, pyRangeStep]
    · rw [userBatches_eq_cons xs hx, List.flatten_cons,
        ih (xs.drop 10) (by
          have hn : 1 ≤ xs.length := by
            cases xs
            · exact absurd rfl hx
            · simp
          rw [List.length_drop]
          omega)]
      exact List.take_append_drop 10 xs

theorem userBatches_flatten {α : Type} (xs : List α) :
    (userBatches 10 xs).flatten = xs :=
  userBatches_flatten_aux xs.length xs (Nat.le_refl _)

theorem batchLoop_names (sendOk : Nat → Bool) :
    ∀ (bs : List (List User)) (i : Nat),
      (batchLoop sendOk i bs).1 =
        bs.map (fun b => match b.head? with | some u => u.name | none => "Friend") := by
  intro bs
  induction bs with
  | nil => intro i; rfl
  | cons b rest ih =>
    intro i
    simp [batchLoop, ih]

theorem batchLoop_calls (sendOk : Nat → Bool) :
    ∀ (bs : List (List User)) (i : Nat),
      (batchLoop sendOk i bs).2.1 = bs.map (fun b => b.map (fun u => u.email)) := by
  intro bs
  induction bs with
  | nil => intro i; rfl
  | cons b rest ih =>
    intro i
    simp [batchLoop, ih]

theorem batchLoop_total (sendOk : Nat → Bool) :
    ∀ (bs : List (List User)) (i : Nat),
      (batchLoop sendOk i bs).2.2 =
        (((List.enumFrom i bs).filter (fun p => sendOk p.1)).map
          (fun p => p.2.length)).sum := by
  intro bs
  induction bs with
  | nil => intro i; rfl
  | cons b rest ih =>
    intro i
    by_cases hs : sendOk i = true
    · simp [batchLoop, ih, List.enumFrom, List.filter_cons, hs]
    · simp [batchLoop, ih, List.enumFrom, List.filter_cons, hs]

/-- Under a working tick whose selection succeeds, the composer
invocations, transport calls, and total are those of the batch loop on
the chunked subscriber list (the empty-subscriber early return gives the
same empty lists). -/
theorem tick_batches (env : TickEnv)
    (ha : env.acquireOk = true) (hw : env.wordQueryOk = true) (hu : env.userQueryOk = true)
    (hsel : (selectDailyWord env.today env.words).isSome = true) :
    (send_daily_word_emails env).composerNames =
      (userBatches schedulerBatchSize env.users).map
        (fun b => match b.head? with | some u => u.name | none => "Friend") ∧
    (send_daily_word_emails env).transportBatches =
      (userBatches schedulerBatchSize env.users).map (fun b => b.map (fun u => u.email)) ∧
    (send_daily_word_emails env).totalSent =
      (((userBatches schedulerBatchSize env.users).enum.filter
          (fun p => env.sendOk p.1)).map (fun p => p.2.length)).sum := by
  obtain ⟨w, hww⟩ := Option.isSome_iff_exists.mp hsel
  unfold send_daily_word_emails
  rw [ha, hw, hww]
  by_cases he : env.users.isEmpty
  · have husers : env.users = [] := List.isEmpty_iff.mp he
    simp [hu, he, husers, userBatches, pyRangeStep, schedulerBatchSize]
  · simp only [hu, he, Bool.not_true, Bool.false_eq_true, if_false, if_true,
      Bool.not_false]
    refine ⟨?_, ?_, ?_⟩
    · exact batchLoop_names env.sendOk _ 0
    · exact batchLoop_calls env.sendOk _ 0
    · exact batchLoop_total env.sendOk _ 0

/-- C2.  For every subscriber list of length `n`, the tick partitions it
in order into `⌈n / 10⌉` batches, each non-final batch of size 10 and
the final batch of size `n % 10` when that is non-zero (10 otherwise);
the Composer is invoked exactly once per batch, and the personalisation
name passed to the Composer for a batch is the name of the first
subscriber in that batch. -/
theorem C2_batching (env : TickEnv)
    (ha : env.acquireOk = true) (hw : env.wordQueryOk = true) (hu : env.userQueryOk = true)
    (hsel : (selectDailyWord env.today env.words).isSome = true) :
    ((userBatches schedulerBatchSize env.users).flatten = env.users) ∧
    ((userBatches schedulerBatchSize env.users).length = (env.users.length + 9) / 10) ∧
    (∀ i (h : i < (userBatches schedulerBatchSize env.users).length),
      i + 1 < (env.users.length + 9) / 10 →
      ((userBatches schedulerBatchSize env.users).get ⟨i, h⟩).length = 10) ∧
    (∀ i (h : i < (userBatches schedulerBatchSize env.users).length),
      i + 1 = (env.users.length + 9) / 10 →
      ((userBatches schedulerBatchSize env.users).get ⟨i, h⟩).length =
        (if env.users.length % 10 = 0 then 10 else env.users.length % 10)) ∧
    ((send_daily_word_emails env).composerNames.length =
      (userBatches schedulerBatchSize env.users).length) ∧
    ((send_daily_word_emails env).composerNames =
      (userBatches schedulerBatchSize env.users).map
        (fun b => match b.head? with | some u => u.name | none => "Friend")) ∧
    (∀ i (h : i < (userBatches schedulerBatchSize env.users).length),
      (userBatches schedulerBatchSize env.users).get ⟨i, h⟩ ≠ []) := by
  obtain ⟨hnames, _, _⟩ := tick_batches env ha hw hu hsel
  have hlen := userBatches_length env.users
  simp only [schedulerBatchSize] at hnames ⊢
  have hsize : ∀ i (h : i < (userBatches 10 env.users).length),
      ((userBatches 10 env.users).get ⟨i, h⟩).length =
        min 10 (env.users.length - i * 10) := by
    intro i h
    rw [userBatches_get env.users i h]
    simp [List.length_take, List.length_drop]
  refine ⟨userBatches_flatten env.users, hlen, ?_, ?_, ?_, hnames, ?_⟩
  · intro i h hlt
    rw [hsize i h]
    have h2 : i < (env.users.length + 9) / 10 := by rw [← hlen]; exact h
    omega
  · intro i h heq
    rw [hsize i h]
    have h2 : i < (env.users.length + 9) / 10 := by rw [← hlen]; exact h
    by_cases hmod : env.users.length % 10 = 0 <;> simp only [hmod, if_true, if_false] <;> omega
  · rw [hnames, List.length_map]
  · intro i h
    have hs := hsize i h
    have h2 : i < (env.users.length + 9) / 10 := by rw [← hlen]; exact h
    intro hcon
    rw [hcon] at hs
    simp at hs
    omega

/-- C3.  The total notified count reported by the tick equals the sum of
the sizes of exactly those batches whose transport call returned
success; every batch is handed to the transport exactly once, in order,
independently of the results of the other batches. -/
theorem C3_aggregation (env : TickEnv)
    (ha : env.acquireOk = true) (hw : env.wordQueryOk = true) (hu : env.userQueryOk = true)
    (hsel : (selectDailyWord env.today env.words).isSome = true) :
    (send_daily_word_emails env).totalSent =
      (((userBatches schedulerBatchSize env.users).enum.filter
        (fun p => env.sendOk p.1)).map (fun p => p.2.length)).sum ∧
    (send_daily_word_emails env).transportBatches =
      (userBatches schedulerBatchSize env.users).map (fun b => b.map (fun u => u.email)) ∧
    (send_daily_word_emails env).transportBatches.length =
      (userBatches schedulerBatchSize env.users).length := by
  obtain ⟨_, hcalls, htotal⟩ := tick_batches env ha hw hu hsel
  exact ⟨htotal, hcalls, by rw [hcalls, List.length_map]⟩

/-- Witness for C2: 23 subscribers give exactly three batches of sizes
10, 10, 3, with the stated batch structure and composer calls. -/
theorem C2_batching_witness :
    ((tickEnvFixture 23).acquireOk = true ∧ (tickEnvFixture 23).wordQueryOk = true ∧
      (tickEnvFixture 23).userQueryOk = true ∧
      (selectDailyWord (tickEnvFixture 23).today (tickEnvFixture 23).words).isSome = true) ∧
    ((userBatches schedulerBatchSize (tickEnvFixture 23).users).map List.length = [10, 10, 3]) ∧
    (((userBatches schedulerBatchSize (tickEnvFixture 23).users).flatten = (tickEnvFixture 23).users) ∧
    ((userBatches schedulerBatchSize (tickEnvFixture 23).users).length =
      ((tickEnvFixture 23).users.length + 9) / 10) ∧
    (∀ i (h : i < (userBatches schedulerBatchSize (tickEnvFixture 23).users).length),
      i + 1 < ((tickEnvFixture 23).users.length + 9) / 10 →
      ((userBatches schedulerBatchSize (tickEnvFixture 23).users).get ⟨i, h⟩).length = 10) ∧
    (∀ i (h : i < (userBatches schedulerBatchSize (tickEnvFixture 23).users).length),
      i + 1 = ((tickEnvFixture 23).users.length + 9) / 10 →
      ((userBatches schedulerBatchSize (tickEnvFixture 23).users).get ⟨i, h⟩).length =
        (if (tickEnvFixture 23).users.length % 10 = 0 then 10
         else (tickEnvFixture 23).users.length % 10)) ∧
    ((send_daily_word_emails (tickEnvFixture 23)).composerNames.length =
      (userBatches schedulerBatchSize (tickEnvFixture 23).users).length) ∧
    ((send_daily_word_emails (tickEnvFixture 23)).composerNames =
      (userBatches schedulerBatchSize (tickEnvFixture 23).users).map
        (fun b => match b.head? with | some u => u.name | none => "Friend")) ∧
    (∀ i (h : i < (userBatches schedulerBatchSize (tickEnvFixture 23).users).length),
      (userBatches schedulerBatchSize (tickEnvFixture 23).users).get ⟨i, h⟩ ≠ [])) :=
  ⟨⟨rfl, rfl, rfl, by decide⟩, by decide,
    C2_batching (tickEnvFixture 23) rfl rfl rfl (by decide)⟩

/-- Witness for C3: with 23 subscribers and the transport succeeding on
batches 0 and 2 but failing on batch 1, the reported total is
`10 + 3 = 13`. -/
theorem C3_aggregation_witness :
    ((selectDailyWord (tickEnvFixture 23).today (tickEnvFixture 23).words).isSome = true) ∧
    ((send_daily_word_emails (tickEnvFixture 23)).totalSent = 13) ∧
    ((send_daily_word_emails (tickEnvFixture 23)).totalSent =
      (((userBatches schedulerBatchSize (tickEnvFixture 23).users).enum.filter
        (fun p => (tickEnvFixture 23).sendOk p.1)).map (fun p => p.2.length)).sum ∧
    (send_daily_word_emails (tickEnvFixture 23)).transportBatches =
      (userBatches schedulerBatchSize (tickEnvFixture 23).users).map
        (fun b => b.map (fun u => u.email)) ∧
    (send_daily_word_emails (tickEnvFixture 23)).transportBatches.length =
      (userBatches schedulerBatchSize (tickEnvFixture 23).users).length) :=
  ⟨by decide, by decide, C3_aggregation (tickEnvFixture 23) rfl rfl rfl (by decide)⟩

/-- C4 (code bug).  The claim says every exception raised during the
tick — including a failure to acquire the store session — is caught at
the top level, and the session is released on every exit path.  The
source's `try/except Exception/finally` intends exactly that, but `db`
is first assigned *inside* the `try` (`src/scheduler.py` line 46), so
when `SessionLocal()` itself raises, the `except` arm logs the error
and the `finally` then evaluates `db.close()` with `db` unbound: an
`UnboundLocalError` propagates out of the tick.  This theorem evaluates
the embedded tick at that failing input (first two conjuncts); an
exception raised after acquisition (for example a failing word query)
is swallowed and still closes the session (next two conjuncts); and on
every path where the session is acquired it is closed (last conjunct). -/
theorem C4_tick_exception_handling :
    (send_daily_word_emails ⟨⟨2025, 3, 10⟩, [], [], false, true, true, fun _ => true⟩).raised
      = true ∧
    (send_daily_word_emails ⟨⟨2025, 3, 10⟩, [], [], false, true, true, fun _ => true⟩).sessionAcquired
      = false ∧
    (send_daily_word_emails ⟨⟨2025, 3, 10⟩, [], [], true, false, true, fun _ => true⟩).raised
      = false ∧
    (send_daily_word_emails ⟨⟨2025, 3, 10⟩, [], [], true, false, true, fun _ => true⟩).sessionClosed
      = true ∧
    ∀ (env : TickEnv), (send_daily_word_emails env).sessionAcquired = true →
      (send_daily_word_emails env).sessionClosed = true := by
  refine ⟨rfl, rfl, rfl, rfl, ?_⟩
  intro env h
  unfold send_daily_word_emails at h ⊢
  by_cases ha : env.acquireOk = true
  · by_cases hw : env.wordQueryOk = true
    · simp only [ha, hw, Bool.not_true] at h ⊢
      cases hsel : selectDailyWord env.today env.words with
      | none => simp [hsel]
      | some w =>
        by_cases hu : env.userQueryOk = true <;> by_cases he : env.users.isEmpty = true <;>
          simp [hsel, hu, he]
    · have hw2 : env.wordQueryOk = false := by
        cases hq : env.wordQueryOk
        · rfl
        · exact absurd hq hw
      simp [ha, hw2]
  · have ha2 : env.acquireOk = false := by
      cases hq : env.acquireOk
      · rfl
      · exact absurd hq ha
    simp [ha2] at h

/-- C8.  Publishing a word with no explicit date sets its publication
date to the current date, publishing with an explicit date sets that
date, and unpublishing clears it; all three refresh `updated_at` and
change no other field. -/
theorem C8_publish_unpublish (store : List Word) (word_id : Nat) (d today : PyDate)
    (now : Nat) (w : Word) (hfind : store.find? (fun v => v.id = word_id) = some w) :
    (∃ s1 w1, publishWord store word_id none today now = Except.ok (s1, w1) ∧
      w1.date_published = some today ∧ w1.updated_at = now ∧
      w1.term = w.term ∧ w1.pronunciation = w.pronunciation ∧
      w1.definition = w.definition ∧ w1.«example» = w.«example» ∧
      w1.category = w.category ∧ w1.difficulty = w.difficulty ∧
      w1.id = w.id ∧ w1.created_at = w.created_at) ∧
    (∃ s2 w2, publishWord store word_id (some d) today now = Except.ok (s2, w2) ∧
      w2.date_published = some d ∧ w2.updated_at = now ∧
      w2.term = w.term ∧ w2.pronunciation = w.pronunciation ∧
      w2.definition = w.definition ∧ w2.«example» = w.«example» ∧
      w2.category = w.category ∧ w2.difficulty = w.difficulty ∧
      w2.id = w.id ∧ w2.created_at = w.created_at) ∧
    (∃ s3 w3, unpublishWord store word_id now = Except.ok (s3, w3) ∧
      w3.date_published = none ∧ w3.updated_at = now ∧
      w3.term = w.term ∧ w3.pronunciation = w.pronunciation ∧
      w3.definition = w.definition ∧ w3.«example» = w.«example» ∧
      w3.category = w.category ∧ w3.difficulty = w.difficulty ∧
      w3.id = w.id ∧ w3.created_at = w.created_at) := by
  unfold publishWord unpublishWord
  rw [hfind]
  exact ⟨⟨_, _, rfl, rfl, rfl, rfl, rfl, rfl, rfl, rfl, rfl, rfl, rfl⟩,
    ⟨_, _, rfl, rfl, rfl, rfl, rfl, rfl, rfl, rfl, rfl, rfl, rfl⟩,
    ⟨_, _, rfl, rfl, rfl, rfl, rfl, rfl, rfl, rfl, rfl, rfl, rfl⟩⟩

/-- Witness for C8 at a concrete one-word store. -/
theorem C8_publish_unpublish_witness :
    ([wordFixture].find? (fun v => v.id = 1) = some wordFixture) ∧
    (∃ s1 w1, publishWord [wordFixture] 1 none ⟨2025, 3, 11⟩ 5 = Except.ok (s1, w1) ∧
      w1.date_published = some ⟨2025, 3, 11⟩ ∧ w1.updated_at = 5 ∧
      w1.term = wordFixture.term ∧ w1.pronunciation = wordFixture.pronunciation ∧
      w1.definition = wordFixture.definition ∧ w1.«example» = wordFixture.«example» ∧
      w1.category = wordFixture.category ∧ w1.difficulty = wordFixture.difficulty ∧
      w1.id = wordFixture.id ∧ w1.created_at = wordFixture.created_at) ∧
    (∃ s2 w2, publishWord [wordFixture] 1 (some ⟨2025, 4, 1⟩) ⟨2025, 3, 11⟩ 5 =
        Except.ok (s2, w2) ∧
      w2.date_published = some ⟨2025, 4, 1⟩ ∧ w2.updated_at = 5 ∧
      w2.term = wordFixture.term ∧ w2.pronunciation = wordFixture.pronunciation ∧
      w2.definition = wordFixture.definition ∧ w2.«example» = wordFixture.«example» ∧
      w2.category = wordFixture.category ∧ w2.difficulty = wordFixture.difficulty ∧
      w2.id = wordFixture.id ∧ w2.created_at = wordFixture.created_at) ∧
    (∃ s3 w3, unpublishWord [wordFixture] 1 5 = Except.ok (s3, w3) ∧
      w3.date_published = none ∧ w3.updated_at = 5 ∧
      w3.term = wordFixture.term ∧ w3.pronunciation = wordFixture.pronunciation ∧
      w3.definition = wordFixture.definition ∧ w3.«example» = wordFixture.«example» ∧
      w3.category = wordFixture.category ∧ w3.difficulty = wordFixture.difficulty ∧
      w3.id = wordFixture.id ∧ w3.created_at = wordFixture.created_at) :=
  ⟨by decide, C8_publish_unpublish [wordFixture] 1 ⟨2025, 4, 1⟩ ⟨2025, 3, 11⟩ 5
    wordFixture (by decide)⟩

/-! ### Monthly query lemmas -/

theorem monthlyOrderLe_trans (a b c : Word) (h1 : monthlyOrderLe a b = true)
    (h2 : monthlyOrderLe b c = true) : monthlyOrderLe a c = true := by
  unfold monthlyOrderLe at *
  cases ha : a.date_published <;> cases hb : b.date_published <;>
    cases hc : c.date_published <;> simp_all
  exact PyDate.le_trans h1 h2

theorem monthlyOrderLe_total (a b : Word) :
    (monthlyOrderLe a b || monthlyOrderLe b a) = true := by
  unfold monthlyOrderLe
  cases ha : a.date_published <;> cases hb : b.date_published <;> simp_all
  exact PyDate.le_total _ _

/-- C9.  For every valid `(year, month)` input (month 1–12, year in the
validated 2020–2030 range), `get_monthly_words` returns exactly the
stored words whose publication date lies between the first and last
calendar day of that month inclusive, ordered ascending by publication
date; a month outside 1–12 is rejected with a 400 validation error. -/
theorem C9_monthly_words (store : List Word) :
    (∀ year month, 1 ≤ month → month ≤ 12 → 2020 ≤ year → year ≤ 2030 →
      ∃ r, getMonthlyWords store year month = Except.ok r ∧
        r.Perm (store.filter (fun w =>
          dateBetween w.date_published ⟨year, month, 1⟩
            ⟨year, month, daysInMonth year month⟩)) ∧
        (∀ w ∈ r, dateBetween w.date_published ⟨year, month, 1⟩
          ⟨year, month, daysInMonth year month⟩ = true) ∧
        r.Pairwise (fun a b => monthlyOrderLe a b = true)) ∧
    (∀ year month, month < 1 ∨ month > 12 →
      getMonthlyWords store year month =
        Except.error (.http 400 "Month must be between 1 and 12")) := by
  constructor
  · intro year month h1 h2 h3 h4
    have hc1 : ¬(month < 1 ∨ month > 12) := by omega
    have hc2 : ¬(year < 2020 ∨ year > 2030) := by omega
    refine ⟨(store.filter (fun w =>
        dateBetween w.date_published ⟨year, month, 1⟩
          ⟨year, month, daysInMonth year month⟩)).mergeSort monthlyOrderLe,
      ?_, ?_, ?_, ?_⟩
    · unfold getMonthlyWords
      rw [if_neg hc1, if_neg hc2]
    · exact List.mergeSort_perm _ _
    · intro w hw
      have hmem := (List.mergeSort_perm _ monthlyOrderLe).mem_iff.mp hw
      exact (List.mem_filter.mp hmem).2
    · exact List.sorted_mergeSort
        (fun a b c => monthlyOrderLe_trans a b c)
        (fun a b => monthlyOrderLe_total a b) _
  · intro year month h
    unfold getMonthlyWords
    rw [if_pos h]

/-- Witness for C9: a concrete store queried at a valid month and at an
invalid month. -/
theorem C9_monthly_words_witness :
    (∃ r, getMonthlyWords [wordFixture] 2025 3 = Except.ok r ∧
      r.Perm ([wordFixture].filter (fun w =>
        dateBetween w.date_published ⟨2025, 3, 1⟩ ⟨2025, 3, daysInMonth 2025 3⟩)) ∧
      (∀ w ∈ r, dateBetween w.date_published ⟨2025, 3, 1⟩
        ⟨2025, 3, daysInMonth 2025 3⟩ = true) ∧
      r.Pairwise (fun a b => monthlyOrderLe a b = true)) ∧
    (getMonthlyWords [wordFixture] 2025 13 =
      Except.error (.http 400 "Month must be between 1 and 12")) :=
  ⟨(C9_monthly_words [wordFixture]).1 2025 3 (by decide) (by decide) (by decide) (by decide),
   (C9_monthly_words [wordFixture]).2 2025 13 (by decide)⟩

/-! ### Published/unpublished partition -/

/-- C7.  With pagination wide enough to return the whole result
(`skip = 0`, `limit ≥` store size), the query with
`published_only=true` returns exactly the words with a non-null
publication date, the query with `unpublished_only=true` exactly those
with a null one, and together the two results are a permutation of the
full store (every stored word lands in exactly one of them). -/
theorem C7_published_partition (store : List Word) (today : PyDate) (limit : Nat)
    (hlimit : store.length ≤ limit) :
    (getWords store today none none none none none none (some true) none 0 limit).Perm
      (store.filter (fun w => w.date_published.isSome)) ∧
    (getWords store today none none none none none none none (some true) 0 limit).Perm
      (store.filter (fun w => w.date_published.isNone)) ∧
    ((getWords store today none none none none none none (some true) none 0 limit) ++
      (getWords store today none none none none none none none (some true) 0 limit)).Perm
        store ∧
    (∀ w ∈ getWords store today none none none none none none (some true) none 0 limit,
      w.date_published.isSome = true) ∧
    (∀ w ∈ getWords store today none none none none none none none (some true) 0 limit,
      w.date_published.isNone = true) := by
  have hpub : getWords store today none none none none none none (some true) none 0 limit =
      (store.filter (fun w => w.date_published.isSome)).mergeSort wordOrderLe := by
    unfold getWords
    simp only [optStrTruthy, optBoolTruthy, Option.getD, if_true, if_false, Bool.false_eq_true]
    rw [List.drop_zero]
    apply List.take_of_length_le
    rw [(List.mergeSort_perm _ _).length_eq]
    exact le_trans (List.length_filter_le _ _) hlimit
  have hunpub : getWords store today none none none none none none none (some true) 0 limit =
      (store.filter (fun w => w.date_published.isNone)).mergeSort wordOrderLe := by
    unfold getWords
    simp only [optStrTruthy, optBoolTruthy, Option.getD, if_true, if_false, Bool.false_eq_true]
    rw [List.drop_zero]
    apply List.take_of_length_le
    rw [(List.mergeSort_perm _ _).length_eq]
    exact le_trans (List.length_filter_le _ _) hlimit
  have p1 : (getWords store today none none none none none none (some true) none 0 limit).Perm
      (store.filter (fun w => w.date_published.isSome)) := by
    rw [hpub]; exact List.mergeSort_perm _ _
  have p2 : (getWords store today none none none none none none none (some true) 0 limit).Perm
      (store.filter (fun w => w.date_published.isNone)) := by
    rw [hunpub]; exact List.mergeSort_perm _ _
  have hcompl : store.filter (fun w => w.date_published.isNone) =
      store.filter (fun w => !(w.date_published.isSome)) := by
    apply List.filter_congr
    intro w _
    cases w.date_published <;> rfl
  refine ⟨p1, p2, ?_, ?_, ?_⟩
  · refine (p1.append p2).trans ?_
    rw [hcompl]
    exact List.filter_append_perm _ store
  · intro w hw
    exact (List.mem_filter.mp (p1.mem_iff.mp hw)).2
  · intro w hw
    exact (List.mem_filter.mp (p2.mem_iff.mp hw)).2

/-- Witness for C7 at a concrete two-word store (one published, one not). -/
theorem C7_published_partition_witness :
    ([wordFixture, ⟨2, "beta", none, "d2", none, none, "beginner", none, 0, 0⟩].length ≤ 100) ∧
    ((getWords [wordFixture, ⟨2, "beta", none, "d2", none, none, "beginner", none, 0, 0⟩]
        ⟨2025, 3, 10⟩ none none none none none none (some true) none 0 100).Perm
      ([wordFixture, ⟨2, "beta", none, "d2", none, none, "beginner", none, 0, 0⟩].filter
        (fun w => w.date_published.isSome)) ∧
    (getWords [wordFixture, ⟨2, "beta", none, "d2", none, none, "beginner", none, 0, 0⟩]
        ⟨2025, 3, 10⟩ none none none none none none none (some true) 0 100).Perm
      ([wordFixture, ⟨2, "beta", none, "d2", none, none, "beginner", none, 0, 0⟩].filter
        (fun w => w.date_published.isNone)) ∧
    ((getWords [wordFixture, ⟨2, "beta", none, "d2", none, none, "beginner", none, 0, 0⟩]
        ⟨2025, 3, 10⟩ none none none none none none (some true) none 0 100) ++
      (getWords [wordFixture, ⟨2, "beta", none, "d2", none, none, "beginner", none, 0, 0⟩]
        ⟨2025, 3, 10⟩ none none none none none none none (some true) 0 100)).Perm
        [wordFixture, ⟨2, "beta", none, "d2", none, none, "beginner", none, 0, 0⟩] ∧
    (∀ w ∈ getWords [wordFixture, ⟨2, "beta", none, "d2", none, none, "beginner", none, 0, 0⟩]
        ⟨2025, 3, 10⟩ none none none none none none (some true) none 0 100,
      w.date_published.isSome = true) ∧
    (∀ w ∈ getWords [wordFixture, ⟨2, "beta", none, "d2", none, none, "beginner", none, 0, 0⟩]
        ⟨2025, 3, 10⟩ none none none none none none none (some true) 0 100,
      w.date_published.isNone = true)) :=
  ⟨by decide,
   C7_published_partition [wordFixture, ⟨2, "beta", none, "d2", none, none, "beginner", none, 0, 0⟩]
     ⟨2025, 3, 10⟩ 100 (by decide)⟩


/-! ### `ILIKE` and normalization lemmas -/

theorem likeMatch_shift (ps ts : List Char) (h : likeMatch ps ts = true) :
    likeMatch ('%' :: ps) ts = true := by
  cases ts with
  | nil => simp [likeMatch, h]
  | cons t ts2 => simp [likeMatch, h]

/-- A pattern matches (under `ILIKE`) every string equal to it up to
ASCII case: literal characters compare case-insensitively, a `%` in the
pattern can consume exactly its own counterpart, and `_` matches any
character. -/
theorem likeMatch_of_lower_eq :
    ∀ (ps ts : List Char), ps.map lowerChar = ts.map lowerChar →
      likeMatch ps ts = true := by
  intro ps
  induction ps with
  | nil =>
    intro ts h
    cases ts with
    | nil => simp [likeMatch]
    | cons t ts2 => simp at h
  | cons p ps ih =>
    intro ts h
    cases ts with
    | nil => simp at h
    | cons t ts2 =>
      simp only [List.map_cons, List.cons.injEq] at h
      obtain ⟨h1, h2⟩ := h
      by_cases hp : p = '%'
      · subst hp
        have hrec := likeMatch_shift ps ts2 (ih ts2 h2)
        simp [likeMatch, hrec]
      · unfold likeMatch
        rw [if_neg hp]
        simp [h1, ih ts2 h2]

theorem ilike_of_ciEq {a b : String} (h : pyLower a = pyLower b) :
    ilike a b = true := by
  unfold ilike
  apply likeMatch_of_lower_eq
  have : a.data.map lowerChar = b.data.map lowerChar := by
    unfold pyLower at h
    exact congrArg String.data h
  exact this.symm

theorem lowerChar_idem (c : Char) : lowerChar (lowerChar c) = lowerChar c := by
  unfold lowerChar
  by_cases h : 65 ≤ c.toNat ∧ c.toNat ≤ 90
  · rw [if_pos h]
    have ht := char_toNat_ofNat_of_valid (show c.toNat + 32 < 55296 by omega)
    rw [if_neg (by omega)]
  · rw [if_neg h, if_neg h]

theorem isPyWS_lowerChar (c : Char) : isPyWS (lowerChar c) = isPyWS c := by
  unfold lowerChar isPyWS
  by_cases h : 65 ≤ c.toNat ∧ c.toNat ≤ 90
  · rw [if_pos h]
    have ht := char_toNat_ofNat_of_valid (show c.toNat + 32 < 55296 by omega)
    rw [ht]
    simp only [decide_eq_decide]
    omega
  · rw [if_neg h]

theorem dropWhile_lowerChar (l : List Char) :
    (l.map lowerChar).dropWhile isPyWS = (l.dropWhile isPyWS).map lowerChar := by
  induction l with
  | nil => rfl
  | cons a l ih =>
    by_cases h : isPyWS a = true
    · simp [List.dropWhile_cons, isPyWS_lowerChar, h, ih]
    · simp [List.dropWhile_cons, isPyWS_lowerChar, h]

theorem pyStripList_map_lower (l : List Char) :
    pyStripList (l.map lowerChar) = (pyStripList l).map lowerChar := by
  unfold pyStripList
  rw [dropWhile_lowerChar, ← List.map_reverse, dropWhile_lowerChar, ← List.map_reverse]

theorem dropWhile_idem (p : α → Bool) (l : List α) :
    (l.dropWhile p).dropWhile p = l.dropWhile p := by
  induction l with
  | nil => rfl
  | cons a l ih =>
    by_cases h : p a = true
    · simp [List.dropWhile_cons, h, ih]
    · simp [List.dropWhile_cons, h]

theorem dropWhile_eq_self_of_prefix {p : α → Bool} {R L : List α}
    (hpre : R <+: L) (hL : L.dropWhile p = L) : R.dropWhile p = R := by
  cases R with
  | nil => rfl
  | cons r rs =>
    obtain ⟨t, ht⟩ := hpre
    have hLr : L = r :: (rs ++ t) := by rw [← ht]; rfl
    have hpr : p r = false := by
      by_contra hc
      have hpr2 : p r = true := by
        cases hq : p r
        · exact absurd hq hc
        · rfl
      rw [hLr, List.dropWhile_cons, if_pos hpr2] at hL
      have hlen := congrArg List.length hL
      rw [List.length_cons] at hlen
      have hle := ((List.dropWhile_suffix p :
        (rs ++ t).dropWhile p <:+ rs ++ t)).sublist.length_le
      omega
    rw [List.dropWhile_cons, if_neg (by simp [hpr])]

theorem pyStripList_idem (l : List Char) :
    pyStripList (pyStripList l) = pyStripList l := by
  set L := l.dropWhile isPyWS with hLdef
  have hLfix : L.dropWhile isPyWS = L := dropWhile_idem isPyWS l
  set R := (L.reverse.dropWhile isPyWS).reverse with hRdef
  have hstrip : pyStripList l = R := rfl
  have hpre : R <+: L := by
    have hsuf : L.reverse.dropWhile isPyWS <:+ L.reverse := List.dropWhile_suffix isPyWS
    have h2 := List.reverse_prefix.mpr hsuf
    rw [List.reverse_reverse] at h2
    rw [hRdef]
    exact h2
  have hR1 : R.dropWhile isPyWS = R := dropWhile_eq_self_of_prefix hpre hLfix
  have hR2 : R.reverse.dropWhile isPyWS = R.reverse := by
    rw [hRdef, List.reverse_reverse]
    exact dropWhile_idem isPyWS L.reverse
  rw [hstrip]
  unfold pyStripList
  rw [hR1, hR2, List.reverse_reverse]

theorem map_lowerChar_idem (l : List Char) :
    (l.map lowerChar).map lowerChar = l.map lowerChar := by
  rw [List.map_map]
  apply List.map_congr_left
  intro a _
  exact lowerChar_idem a

/-- The stored form `lower(strip(v))` is itself lower-case and trimmed. -/
theorem norm_idem (v : String) :
    pyLower (pyStrip (pyLower (pyStrip v))) = pyLower (pyStrip v) := by
  unfold pyLower pyStrip
  simp only [pyStripList_map_lower]
  rw [pyStripList_idem, map_lowerChar_idem]


/-! ### Duplicate-term conflicts -/

/-- C6 (amended).  Creating a word whose term is case-insensitively
equal to a stored term fails with a 400 Conflict and leaves the store
unchanged; an update renaming a word to a *non-empty* term
case-insensitively equal to a different existing word's term likewise
fails with a 400 Conflict and leaves the store unchanged.  (The
non-empty restriction is forced by the source: the update loop's
`elif field == "term" and value:` guard skips the duplicate check for a
falsy value — see the counterexample.) -/
theorem C6_duplicate_term_conflict :
    (∀ (store : List Word) (req : WordCreate) (now nextId : Nat) (w : Word),
      w ∈ store → pyLower w.term = pyLower req.term →
      createWord store req now nextId =
        Except.error (.http 400 ("Term \x27" ++ req.term ++ "\x27 already exists")) ∧
      storeAfterCreate store req now nextId = store) ∧
    (∀ (store : List Word) (word_id : Nat) (upd : WordUpdate) (now : Nat) (v : String)
        (wc : Word),
      upd.term = some (some v) → v ≠ "" →
      wc ∈ store → wc.id ≠ word_id → pyLower wc.term = pyLower v →
      (store.find? (fun w => w.id = word_id)).isSome = true →
      updateWord store word_id upd now =
        Except.error (.http 400 ("Term \x27" ++ v ++ "\x27 already exists")) ∧
      storeAfterUpdate store word_id upd now = store) := by
  constructor
  · intro store req now nextId w hmem hci
    have hlike : ilike w.term req.term = true := ilike_of_ciEq hci
    have hsome : ∃ x, (store.filter (fun w2 => ilike w2.term req.term)).head? = some x := by
      cases hh : (store.filter (fun w2 => ilike w2.term req.term)).head? with
      | none =>
        exfalso
        have hnil := List.head?_eq_none_iff.mp hh
        have := List.filter_eq_nil_iff.mp hnil w hmem
        simp [hlike] at this
      | some x => exact ⟨x, rfl⟩
    obtain ⟨x, hx⟩ := hsome
    have hres : createWord store req now nextId =
        Except.error (.http 400 ("Term \x27" ++ req.term ++ "\x27 already exists")) := by
      unfold createWord
      rw [hx]
    exact ⟨hres, by unfold storeAfterCreate; rw [hres]⟩
  · intro store word_id upd now v wc hterm hv hmem hid hci hfind
    obtain ⟨word, hword⟩ := Option.isSome_iff_exists.mp hfind
    have hlike : ilike wc.term v = true := ilike_of_ciEq hci
    have hpred : (fun w => decide (w.id ≠ word_id) && ilike w.term v) wc = true := by
      simp [hlike, hid]
    have hsome : ∃ x,
        (store.filter (fun w => decide (w.id ≠ word_id) && ilike w.term v)).head? = some x := by
      cases hh : (store.filter (fun w => decide (w.id ≠ word_id) && ilike w.term v)).head? with
      | none =>
        exfalso
        have hnil := List.head?_eq_none_iff.mp hh
        have := List.filter_eq_nil_iff.mp hnil wc hmem
        simp [hlike, hid] at this
      | some x => exact ⟨x, rfl⟩
    obtain ⟨x, hx⟩ := hsome
    have hres : updateWord store word_id upd now =
        Except.error (.http 400 ("Term \x27" ++ v ++ "\x27 already exists")) := by
      unfold updateWord
      rw [hword, hterm]
      simp only [if_pos hv, hx, Option.isSome_some, if_true]
    exact ⟨hres, by unfold storeAfterUpdate; rw [hres]⟩

/-- Counterexample to C6 as stated: word 1 of `emptyTermStore` has the
(reachable) stored term `""`; renaming word 2 to `""` is
case-insensitively equal to that different word's term, yet the update
is not rejected with a Conflict — the `elif field == "term" and value:`
guard skips the duplicate check for the falsy value, the raw `setattr`
stores it, and the commit fails with the unique-constraint
`IntegrityError` (a 500, not the claimed 400 Conflict). -/
theorem C6_duplicate_term_conflict_counterexample :
    (pyLower "" = pyLower "" ∧ (1 : Nat) ≠ 2 ∧
      renameToEmptyUpd.term = some (some "") ∧
      (emptyTermStore.find? (fun w => w.id = 2)).isSome = true) ∧
    updateWord emptyTermStore 2 renameToEmptyUpd 7 = Except.error DbError.integrityError ∧
    (∀ status detail, updateWord emptyTermStore 2 renameToEmptyUpd 7 ≠
      Except.error (DbError.http status detail)) := by
  refine ⟨by decide, rfl, ?_⟩
  intro status detail h
  rw [show updateWord emptyTermStore 2 renameToEmptyUpd 7 =
    Except.error DbError.integrityError from rfl] at h
  simp at h

/-- Witness for C6 (amended): duplicate create of `"ALPHA"` over
`"alpha"`, and rename of word 2 to `"Alpha"` over the same store. -/
theorem C6_duplicate_term_conflict_witness :
    ((wordFixture ∈ twoWordStore ∧ pyLower wordFixture.term = pyLower dupCreateReq.term) ∧
      createWord twoWordStore dupCreateReq 3 9 =
        Except.error (.http 400 ("Term \x27" ++ dupCreateReq.term ++ "\x27 already exists")) ∧
      storeAfterCreate twoWordStore dupCreateReq 3 9 = twoWordStore) ∧
    ((dupRenameUpd.term = some (some "Alpha") ∧ ("Alpha" : String) ≠ "" ∧
      wordFixture ∈ twoWordStore ∧ wordFixture.id ≠ 2 ∧
      pyLower wordFixture.term = pyLower "Alpha" ∧
      (twoWordStore.find? (fun w => w.id = 2)).isSome = true) ∧
      updateWord twoWordStore 2 dupRenameUpd 3 =
        Except.error (.http 400 ("Term \x27Alpha\x27 already exists")) ∧
      storeAfterUpdate twoWordStore 2 dupRenameUpd 3 = twoWordStore) :=
  ⟨⟨⟨by decide, by decide⟩,
    C6_duplicate_term_conflict.1 twoWordStore dupCreateReq 3 9 wordFixture
      (by decide) (by decide)⟩,
   ⟨⟨by decide, by decide, by decide, by decide, by decide, by decide⟩,
    C6_duplicate_term_conflict.2 twoWordStore 2 dupRenameUpd 3 "Alpha" wordFixture
      (by decide) (by decide) (by decide) (by decide) (by decide) (by decide)⟩⟩


/-! ### Term-normalization invariant -/

/-- Shape of every successful `update_word` call: the target row exists,
the store is the row-replaced store, and the committed term is the old
term (field absent), the lower-cased stripped new term (truthy value),
or the verbatim empty string (falsy value). -/
theorem updateWord_ok_shape {store : List Word} {word_id : Nat} {upd : WordUpdate}
    {now : Nat} {s : List Word} {w1 : Word}
    (hok : updateWord store word_id upd now = Except.ok (s, w1)) :
    ∃ word, store.find? (fun w => w.id = word_id) = some word ∧
      s = store.map (fun w => if w.id = word_id then w1 else w) ∧
      ((upd.term = none ∧ w1.term = word.term) ∨
       (∃ v, upd.term = some (some v) ∧ v ≠ "" ∧ w1.term = pyLower (pyStrip v)) ∨
       (upd.term = some (some "") ∧ w1.term = "")) := by
  unfold updateWord at hok
  cases hfind : store.find? (fun w => w.id = word_id) with
  | none => rw [hfind] at hok; simp at hok
  | some word =>
    rw [hfind] at hok
    refine ⟨word, rfl, ?_⟩
    cases hterm : upd.term with
    | none =>
      simp only [hterm] at hok
      repeat' split at hok
      any_goals exact Except.noConfusion hok
      all_goals
        simp only [Except.ok.injEq, Prod.mk.injEq] at hok
        obtain ⟨hs, hw⟩ := hok
        subst hs
        subst hw
        refine ⟨rfl, ?_⟩
        simp_all
    | some vv =>
      cases vv with
      | none =>
        simp only [hterm] at hok
        exact Except.noConfusion hok
      | some v =>
        by_cases hv : v = ""
        · subst hv
          simp only [hterm] at hok
          rw [if_neg (by simp)] at hok
          repeat' split at hok
          any_goals exact Except.noConfusion hok
          all_goals
            simp only [Except.ok.injEq, Prod.mk.injEq] at hok
            obtain ⟨hs, hw⟩ := hok
            subst hs
            subst hw
            refine ⟨rfl, ?_⟩
            simp_all
        · simp only [hterm] at hok
          rw [if_pos hv] at hok
          by_cases hcond :
              ((store.filter (fun w => decide (w.id ≠ word_id) && ilike w.term v)).head?).isSome = true
          · rw [if_pos hcond] at hok
            exact Except.noConfusion hok
          · rw [if_neg hcond] at hok
            repeat' split at hok
            any_goals exact Except.noConfusion hok
            all_goals
              simp only [Except.ok.injEq, Prod.mk.injEq] at hok
              obtain ⟨hs, hw⟩ := hok
              subst hs
              subst hw
              refine ⟨rfl, ?_⟩
              simp_all

/-- C10.  Every term stored by `create_word` is the submitted term
lower-cased and stripped, and it is the term of the returned entity;
every term committed by a term-renaming `update_word` equals the
lower-cased stripped submitted value; and both operations preserve the
invariant that every stored term is lower-case and trimmed. -/
theorem C10_term_normalization :
    (∀ (store : List Word) (req : WordCreate) (now nextId : Nat) (s : List Word) (w1 : Word),
      createWord store req now nextId = Except.ok (s, w1) →
      w1.term = pyLower (pyStrip req.term) ∧ w1 ∈ s ∧
      (allNormalized store → allNormalized s)) ∧
    (∀ (store : List Word) (word_id : Nat) (upd : WordUpdate) (now : Nat)
        (s : List Word) (w1 : Word) (v : String),
      upd.term = some (some v) →
      updateWord store word_id upd now = Except.ok (s, w1) →
      w1.term = pyLower (pyStrip v)) ∧
    (∀ (store : List Word) (word_id : Nat) (upd : WordUpdate) (now : Nat)
        (s : List Word) (w1 : Word),
      updateWord store word_id upd now = Except.ok (s, w1) →
      allNormalized store → allNormalized s) := by
  refine ⟨?_, ?_, ?_⟩
  · intro store req now nextId s w1 hok
    unfold createWord at hok
    cases hh : (store.filter (fun w => ilike w.term req.term)).head? with
    | some x => rw [hh] at hok; simp at hok
    | none =>
      rw [hh] at hok
      rcases ite_eq_iff.mp hok with ⟨hc, h1⟩ | ⟨hc, h1⟩
      · exact Except.noConfusion h1
      · injection h1 with hpair
        injection hpair with hs hw
        subst hs
        refine ⟨by rw [← hw], by rw [← hw]; simp, ?_⟩
        intro hnorm w2 hw2
        rcases List.mem_append.mp hw2 with hold | hnew
        · exact hnorm w2 hold
        · have hw2e := List.mem_singleton.mp hnew
          subst hw2e
          exact (norm_idem req.term).symm
  · intro store word_id upd now s w1 v hterm hok
    obtain ⟨word, _, _, hcase⟩ := updateWord_ok_shape hok
    rcases hcase with ⟨h1, _⟩ | ⟨v2, h2, _, h4⟩ | ⟨h5, h6⟩
    · rw [hterm] at h1; cases h1
    · rw [hterm] at h2
      have : v2 = v := by simpa using h2.symm
      subst this
      exact h4
    · rw [hterm] at h5
      have : v = "" := by simpa using h5
      subst this
      exact h6
  · intro store word_id upd now s w1 hok hnorm
    obtain ⟨word, hfind, hs, hcase⟩ := updateWord_ok_shape hok
    have hmemw : word ∈ store := List.mem_of_find?_eq_some hfind
    have hw1 : w1.term = pyLower (pyStrip w1.term) := by
      rcases hcase with ⟨_, h1⟩ | ⟨v, _, _, h4⟩ | ⟨_, h6⟩
      · rw [h1]; exact hnorm word hmemw
      · rw [h4]; exact (norm_idem v).symm
      · rw [h6]; rfl
    subst hs
    intro w2 hw2
    obtain ⟨w0, hw0, hweq⟩ := List.mem_map.mp hw2
    by_cases hid : w0.id = word_id
    · rw [if_pos hid] at hweq
      rw [← hweq]
      exact hw1
    · rw [if_neg hid] at hweq
      rw [← hweq]
      exact hnorm w0 hw0

/-- Witness for C10: creating `"  MiXeD  "` stores `"mixed"`; renaming
word 2 to `" BETA2 "` stores `"beta2"`; both preserve the invariant. -/
theorem C10_term_normalization_witness :
    (createWord [] { term := "  MiXeD  ", definition := "d" } 3 9 =
      Except.ok ([mixedWordRecord], mixedWordRecord)) ∧
    (mixedWordRecord.term = pyLower (pyStrip "  MiXeD  ") ∧
      mixedWordRecord ∈ [mixedWordRecord] ∧
      (allNormalized [] → allNormalized [mixedWordRecord])) ∧
    mixedWordRecord.term = "mixed" ∧
    (updateWord oneWordStore 2 { term := some (some " BETA2 ") } 3 =
      Except.ok ([beta2Record], beta2Record)) ∧
    beta2Record.term = pyLower (pyStrip " BETA2 ") ∧
    beta2Record.term = "beta2" ∧
    (allNormalized oneWordStore → allNormalized [beta2Record]) := by
  have hcreate : createWord [] { term := "  MiXeD  ", definition := "d" } 3 9 =
      Except.ok ([mixedWordRecord], mixedWordRecord) := by rfl
  have hupd : updateWord oneWordStore 2 { term := some (some " BETA2 ") } 3 =
      Except.ok ([beta2Record], beta2Record) := by rfl
  refine ⟨hcreate, ?_, by rfl, hupd, ?_, by rfl, ?_⟩
  · have h := C10_term_normalization.1 []
      { term := "  MiXeD  ", definition := "d" } 3 9 _ _ hcreate
    simpa using h
  · exact C10_term_normalization.2.1 oneWordStore 2
      { term := some (some " BETA2 ") } 3 _ _ " BETA2 " rfl hupd
  · exact C10_term_normalization.2.2 oneWordStore 2
      { term := some (some " BETA2 ") } 3 _ _ hupd


/-! ### Composer properties -/

/-- C5.  The composer is a pure function of the word data and recipient
name returning the pair of rendered bodies.  Both bodies are non-empty
and render the term, definition and difficulty (the text body renders
the term upper-cased and the difficulty title-cased, as the template
does); the pronunciation, example and category sections appear in each
rendering exactly when the field is present (truthy: non-null and
non-empty, the template engine's conditional); when a section appears
the field value is contained in the body; and the rendered date is the
long format of a parsable publication date and the fallback `"Today"`
whenever the date is missing or unparsable. -/
theorem C5_composer (wd : WordData) (name : String) :
    create_word_email wd name =
      (String.join (htmlParts wd name (emailWordDate wd)),
       String.join (textParts wd name (emailWordDate wd))) ∧
    (create_word_email wd name).1 ≠ "" ∧
    (create_word_email wd name).2 ≠ "" ∧
    strContains (create_word_email wd name).1 wd.term ∧
    strContains (create_word_email wd name).1 wd.definition ∧
    strContains (create_word_email wd name).1 wd.difficulty ∧
    strContains (create_word_email wd name).2 (pyUpper wd.term) ∧
    strContains (create_word_email wd name).2 wd.definition ∧
    strContains (create_word_email wd name).2 (pyTitle wd.difficulty) ∧
    (htmlPronBlock wd ≠ [] ↔ optStrTruthy wd.pronunciation = true) ∧
    (textPronBlock wd ≠ [] ↔ optStrTruthy wd.pronunciation = true) ∧
    (optStrTruthy wd.pronunciation = true →
      strContains (create_word_email wd name).1 (wd.pronunciation.getD "") ∧
      strContains (create_word_email wd name).2 (wd.pronunciation.getD "")) ∧
    (htmlExampleBlock wd ≠ [] ↔ optStrTruthy wd.«example» = true) ∧
    (textExampleBlock wd ≠ [] ↔ optStrTruthy wd.«example» = true) ∧
    (optStrTruthy wd.«example» = true →
      strContains (create_word_email wd name).1 (wd.«example».getD "") ∧
      strContains (create_word_email wd name).2 (wd.«example».getD "")) ∧
    (htmlCatBlock wd ≠ [] ↔ optStrTruthy wd.category = true) ∧
    (textCatBlock wd ≠ [] ↔ optStrTruthy wd.category = true) ∧
    (optStrTruthy wd.category = true →
      strContains (create_word_email wd name).1 (wd.category.getD "") ∧
      strContains (create_word_email wd name).2 (wd.category.getD "")) ∧
    strContains (create_word_email wd name).1 (emailWordDate wd) ∧
    strContains (create_word_email wd name).2 (emailWordDate wd) ∧
    (wd.date_published = none → emailWordDate wd = "Today") ∧
    (∀ s, wd.date_published = some s → parseIsoDate s = none →
      emailWordDate wd = "Today") ∧
    (∀ s d, wd.date_published = some s → parseIsoDate s = some d →
      emailWordDate wd = formatLongDate d) := by
  have hpair : create_word_email wd name =
      (String.join (htmlParts wd name (emailWordDate wd)),
       String.join (textParts wd name (emailWordDate wd))) := rfl
  have hhtml : (create_word_email wd name).1 =
      String.join (htmlParts wd name (emailWordDate wd)) := by rw [hpair]
  have htext : (create_word_email wd name).2 =
      String.join (textParts wd name (emailWordDate wd)) := by rw [hpair]
  have hmh : ∀ x, x ∈ htmlParts wd name (emailWordDate wd) →
      strContains (create_word_email wd name).1 x := by
    intro x hx
    rw [hhtml]
    exact strContains_join_of_mem hx
  have hmt : ∀ x, x ∈ textParts wd name (emailWordDate wd) →
      strContains (create_word_email wd name).2 x := by
    intro x hx
    rw [htext]
    exact strContains_join_of_mem hx
  refine ⟨hpair, ?_, ?_, ?_, ?_, ?_, ?_, ?_, ?_, ?_, ?_, ?_, ?_, ?_, ?_, ?_, ?_, ?_,
    ?_, ?_, ?_, ?_, ?_⟩
  · exact ne_empty_of_strContains (hmh "\">" (by simp [htmlParts])) (by decide)
  · exact ne_empty_of_strContains
      (hmt "\n\nDefinition: " (by simp [textParts])) (by decide)
  · exact hmh wd.term (by simp [htmlParts])
  · exact hmh wd.definition (by simp [htmlParts])
  · exact hmh wd.difficulty (by simp [htmlParts])
  · exact hmt (pyUpper wd.term) (by simp [textParts])
  · exact hmt wd.definition (by simp [textParts])
  · exact hmt (pyTitle wd.difficulty) (by simp [textParts])
  · by_cases h : optStrTruthy wd.pronunciation = true <;> simp [htmlPronBlock, h]
  · by_cases h : optStrTruthy wd.pronunciation = true <;> simp [textPronBlock, h]
  · intro h
    exact ⟨hmh (wd.pronunciation.getD "") (by simp [htmlParts, htmlPronBlock, h]),
      hmt (wd.pronunciation.getD "") (by simp [textParts, textPronBlock, h])⟩
  · by_cases h : optStrTruthy wd.«example» = true <;> simp [htmlExampleBlock, h]
  · by_cases h : optStrTruthy wd.«example» = true <;> simp [textExampleBlock, h]
  · intro h
    exact ⟨hmh (wd.«example».getD "") (by simp [htmlParts, htmlExampleBlock, h]),
      hmt (wd.«example».getD "") (by simp [textParts, textExampleBlock, h])⟩
  · by_cases h : optStrTruthy wd.category = true <;> simp [htmlCatBlock, h]
  · by_cases h : optStrTruthy wd.category = true <;> simp [textCatBlock, h]
  · intro h
    exact ⟨hmh (wd.category.getD "") (by simp [htmlParts, htmlCatBlock, h]),
      hmt (wd.category.getD "") (by simp [textParts, textCatBlock, h])⟩
  · exact hmh (emailWordDate wd) (by simp [htmlParts])
  · exact hmt (emailWordDate wd) (by simp [textParts])
  · intro h
    simp [emailWordDate, h]
  · intro s hs hp
    rw [emailWordDate, hs]
    by_cases he : s = ""
    · simp [he]
    · simp [he, hp]
  · intro s d hs hp
    rw [emailWordDate, hs]
    have he : s ≠ "" := by
      intro hcon
      rw [hcon] at hp
      rw [show parseIsoDate "" = none from rfl] at hp
      cases hp
    simp [he, hp]


/-- Witness for C5: the composer theorem at a fully populated word
and a concrete recipient. -/
theorem C5_composer_witness :
    create_word_email wdFull "Alice" =
      (String.join (htmlParts wdFull "Alice" (emailWordDate wdFull)),
       String.join (textParts wdFull "Alice" (emailWordDate wdFull))) ∧
    (create_word_email wdFull "Alice").1 ≠ "" ∧
    (create_word_email wdFull "Alice").2 ≠ "" ∧
    strContains (create_word_email wdFull "Alice").1 wdFull.term ∧
    strContains (create_word_email wdFull "Alice").1 wdFull.definition ∧
    strContains (create_word_email wdFull "Alice").1 wdFull.difficulty ∧
    strContains (create_word_email wdFull "Alice").2 (pyUpper wdFull.term) ∧
    strContains (create_word_email wdFull "Alice").2 wdFull.definition ∧
    strContains (create_word_email wdFull "Alice").2 (pyTitle wdFull.difficulty) ∧
    (htmlPronBlock wdFull ≠ [] ↔ optStrTruthy wdFull.pronunciation = true) ∧
    (textPronBlock wdFull ≠ [] ↔ optStrTruthy wdFull.pronunciation = true) ∧
    (optStrTruthy wdFull.pronunciation = true →
      strContains (create_word_email wdFull "Alice").1 (wdFull.pronunciation.getD "") ∧
      strContains (create_word_email wdFull "Alice").2 (wdFull.pronunciation.getD "")) ∧
    (htmlExampleBlock wdFull ≠ [] ↔ optStrTruthy wdFull.«example» = true) ∧
    (textExampleBlock wdFull ≠ [] ↔ optStrTruthy wdFull.«example» = true) ∧
    (optStrTruthy wdFull.«example» = true →
      strContains (create_word_email wdFull "Alice").1 (wdFull.«example».getD "") ∧
      strContains (create_word_email wdFull "Alice").2 (wdFull.«example».getD "")) ∧
    (htmlCatBlock wdFull ≠ [] ↔ optStrTruthy wdFull.category = true) ∧
    (textCatBlock wdFull ≠ [] ↔ optStrTruthy wdFull.category = true) ∧
    (optStrTruthy wdFull.category = true →
      strContains (create_word_email wdFull "Alice").1 (wdFull.category.getD "") ∧
      strContains (create_word_email wdFull "Alice").2 (wdFull.category.getD "")) ∧
    strContains (create_word_email wdFull "Alice").1 (emailWordDate wdFull) ∧
    strContains (create_word_email wdFull "Alice").2 (emailWordDate wdFull) ∧
    (wdFull.date_published = none → emailWordDate wdFull = "Today") ∧
    (∀ s, wdFull.date_published = some s → parseIsoDate s = none →
      emailWordDate wdFull = "Today") ∧
    (∀ s d, wdFull.date_published = some s → parseIsoDate s = some d →
      emailWordDate wdFull = formatLongDate d) :=
  C5_composer wdFull "Alice"

end AWD

